import Mathlib

/-!
Shallow embedding of the `septago` 7×7 crossword core
(`septago_crossword/geometry.py` and `septago_crossword/engine.py`),
together with proofs of the specification's testable properties.

Modelling conventions:
* Python `int` is `Int`; list indices are converted with `Int.toNat`
  only under the same non-negativity guards the source checks (or that
  the state invariants provide).
* The dict `grid_cells : Dict[GridBarId, List[str]]` always holds exactly
  the six fixed keys (`init_state` creates all six and no transition ever
  removes or adds a key), so it is embedded as a total function
  `GridBarId → List String`; the source's `bar_id in state.grid_cells`
  test on a raw string becomes `parseGridBar bar_id ≠ none`.
* `hidden_cells : Dict[str, List[str]]` has a dynamic key set, so it is
  embedded as an insertion-ordered association list; dict-value update
  becomes an order-preserving `List.map`.
* `uuid.uuid4()` and `time.time()` are modelled as oracle inputs
  (`freshId`, `now`) threaded to the functions that call them.
* A cell holds a single letter or `""`, embedded as `String`.
-/

-- =====================================================================
-- geometry.py
-- =====================================================================

/-- `Cell = Tuple[int, int]`. -/
abbrev Cell := Int × Int

/-- `GridBarId = Literal["h1","h2","h3","v1","v2","v3"]`. -/
inductive GridBarId where
  | h1 | h2 | h3 | v1 | v2 | v3
deriving DecidableEq, Repr

/-- Static geometry contract (`GridSpec` dataclass). -/
structure GridSpec where
  size : Nat
  playable_mask : List (List Bool)
  /-- Bar -> ordered list of cells (insertion-ordered dict). -/
  bars : List (GridBarId × List Cell)
  /-- Cell -> list of (bar_id, index) positions. -/
  cell_to_positions : List (Cell × List (GridBarId × Int))
  /-- Cross-link between bar positions at intersections. -/
  cross_map : List ((GridBarId × Int) × (GridBarId × Int))
  /-- Canonical intersection order for display-only pool. -/
  intersections : List (GridBarId × Int)
  bar_lengths : GridBarId → Nat

/-- `range(n)` as a list of Python ints. -/
def rangeInt (n : Nat) : List Int := (List.range n).map Int.ofNat

/-- The `bars` dict literal of `build_grid_spec` (insertion order). -/
def barItems : List (GridBarId × List Cell) :=
  [ (GridBarId.h1, (rangeInt 7).map (fun c => ((1 : Int), c)))
  , (GridBarId.h2, (rangeInt 7).map (fun c => ((3 : Int), c)))
  , (GridBarId.h3, (rangeInt 7).map (fun c => ((5 : Int), c)))
  , (GridBarId.v1, (rangeInt 7).map (fun r => (r, (1 : Int))))
  , (GridBarId.v2, (rangeInt 7).map (fun r => (r, (3 : Int))))
  , (GridBarId.v3, (rangeInt 7).map (fun r => (r, (5 : Int)))) ]

/-- `cell_to_positions.setdefault(cell, []).append((bid, i))`. -/
def addPos (m : List (Cell × List (GridBarId × Int))) (cell : Cell)
    (pos : GridBarId × Int) : List (Cell × List (GridBarId × Int)) :=
  if m.any (fun e => decide (e.1 = cell)) then
    m.map (fun e => if e.1 = cell then (e.1, e.2 ++ [pos]) else e)
  else
    m ++ [(cell, [pos])]

/-- The cell -> positions build loop of `build_grid_spec`. -/
def buildPositions : List (Cell × List (GridBarId × Int)) :=
  barItems.foldl
    (fun m e =>
      e.2.enum.foldl (fun acc p => addPos acc p.2 (e.1, (p.1 : Int))) m)
    []

/-- Cross map loop: every cell with exactly two positions links them both ways. -/
def buildCross (positions : List (Cell × List (GridBarId × Int))) :
    List ((GridBarId × Int) × (GridBarId × Int)) :=
  positions.foldl
    (fun cm e =>
      match e.2 with
      | [a, b] => cm ++ [(a, b), (b, a)]
      | _ => cm)
    []

/-- `build_grid_spec()` : fixed 7×7 Septago geometry. -/
def build_grid_spec : GridSpec :=
  let size := 7
  let playable_mask : List (List Bool) :=
    (rangeInt size).map (fun r =>
      (rangeInt size).map (fun c =>
        (r == 1 || r == 3 || r == 5) || (c == 1 || c == 3 || c == 5)))
  let cell_to_positions := buildPositions
  let cross_map := buildCross cell_to_positions
  let intersections : List (GridBarId × Int) :=
    [ (GridBarId.h1, (1 : Int)), (GridBarId.h1, 3), (GridBarId.h1, 5)
    , (GridBarId.h2, 1), (GridBarId.h2, 3), (GridBarId.h2, 5)
    , (GridBarId.h3, 1), (GridBarId.h3, 3), (GridBarId.h3, 5) ]
  { size := size
    playable_mask := playable_mask
    bars := barItems
    cell_to_positions := cell_to_positions
    cross_map := cross_map
    intersections := intersections
    bar_lengths := fun b =>
      match barItems.find? (fun e => decide (e.1 = b)) with
      | some e => e.2.length
      | none => 0 }

/-- The one geometry the application ever builds. -/
def septagoSpec : GridSpec := build_grid_spec

/-- `key in grid.cross_map` / `grid.cross_map[key]` (dict lookup). -/
def crossLookup (g : GridSpec) (k : GridBarId × Int) :
    Option (GridBarId × Int) :=
  (g.cross_map.find? (fun e => decide (e.1 = k))).map (fun e => e.2)

-- =====================================================================
-- engine.py : contracts
-- =====================================================================

/-- `BarScope = Literal["grid", "hidden"]` (the values stored in state). -/
inductive Scope where
  | grid | hidden
deriving DecidableEq, Repr

/-- `Direction = Literal["horizontal", "vertical"]`. -/
inductive Direction where
  | horizontal | vertical
deriving DecidableEq, Repr

/-- `ActiveRef` TypedDict. -/
structure ActiveRef where
  scope : Scope
  bar_id : String
  index : Int
  direction : Direction
deriving DecidableEq, Repr

/-- `BarRef` TypedDict. -/
structure BarRef where
  scope : Scope
  bar_id : String
  length : Nat
deriving DecidableEq, Repr

/-- A Python value that `int(...)` either parses or rejects. -/
inductive PyIntLike where
  | int (n : Int)
  | nonNumeric
deriving DecidableEq, Repr

/-- Event payload dict: each field may be absent (`none`). -/
structure Payload where
  letter : Option String := none
  scope : Option String := none
  bar_id : Option String := none
  index : Option PyIntLike := none
  client_seq : Option PyIntLike := none
deriving DecidableEq, Repr

/-- `GridEvent` dataclass; `type` is an open string so unrecognized
event types can be reduced. -/
structure GridEvent where
  type : String
  payload : Payload
deriving DecidableEq, Repr

/-- `GameState` dataclass. -/
structure GameState where
  puzzle_id : String
  state_id : String
  grid_cells : GridBarId → List String
  hidden_cells : List (String × List String)
  active : ActiveRef
  clue_order : List BarRef
  start_time : Nat
  last_client_seq : Int
  last_action : String

/-- `GRID_ORDER`. -/
def GRID_ORDER : List GridBarId :=
  [GridBarId.h1, GridBarId.h2, GridBarId.h3,
   GridBarId.v1, GridBarId.v2, GridBarId.v3]

/-- The string names of the six grid bars, i.e. the key set of
`state.grid_cells`; `bar_id in state.grid_cells` on a raw string is
embedded as `parseGridBar bar_id ≠ none`. -/
def parseGridBar (s : String) : Option GridBarId :=
  if s = "h1" then some GridBarId.h1
  else if s = "h2" then some GridBarId.h2
  else if s = "h3" then some GridBarId.h3
  else if s = "v1" then some GridBarId.v1
  else if s = "v2" then some GridBarId.v2
  else if s = "v3" then some GridBarId.v3
  else none

/-- The string key of a grid bar (inverse of `parseGridBar`). -/
def gridBarName : GridBarId → String
  | GridBarId.h1 => "h1"
  | GridBarId.h2 => "h2"
  | GridBarId.h3 => "h3"
  | GridBarId.v1 => "v1"
  | GridBarId.v2 => "v2"
  | GridBarId.v3 => "v3"

/-- `_bar_direction(bar_id)`. -/
def _bar_direction (bar_id : String) : Direction :=
  if bar_id = "h1" ∨ bar_id = "h2" ∨ bar_id = "h3" then Direction.horizontal
  else if bar_id = "v1" ∨ bar_id = "v2" ∨ bar_id = "v3" then Direction.vertical
  else Direction.horizontal

/-- `_first_empty_index(cells)`: first `i` with an empty cell, else 0. -/
def _first_empty_index (cells : List String) : Int :=
  match cells.findIdx? (fun ch => decide (ch = "")) with
  | some i => (i : Int)
  | none => 0

/-- Ordered-dict lookup on `hidden_cells` (`bar_id in d` and `d[bar_id]`). -/
def lookupHidden (h : List (String × List String)) (k : String) :
    Option (List String) :=
  (h.find? (fun e => decide (e.1 = k))).map (fun e => e.2)

/-- Ordered-dict value update `d[k] = arr` for an existing key
(order preserving, as a Python dict copy + assignment). -/
def updateHidden (h : List (String × List String)) (k : String)
    (arr : List String) : List (String × List String) :=
  h.map (fun e => if e.1 = k then (e.1, arr) else e)

/-- Grid dict copy + assignment `new_grid[b] = arr` on the total-function
embedding of `grid_cells`. -/
def updateBar (g : GridBarId → List String) (b : GridBarId)
    (arr : List String) : GridBarId → List String :=
  fun b' => if b' = b then arr else g b'

-- =====================================================================
-- engine.py : init
-- =====================================================================

/-- The `Puzzle` record fields the engine reads (`puzzle_io.Puzzle`):
`answers["hidden"]` (a list of strings), `meta.get("id")`, `filename`. -/
structure Puzzle where
  answers_hidden : List String
  meta_id : Option String
  filename : String
deriving DecidableEq, Repr

/-- Hidden-cells build loop of `init_state`
(`enumerate(hidden_answers, start=1)`). -/
def mkHiddenCells : List String → Nat → List (String × List String)
  | [], _ => []
  | w :: ws, i =>
      ("hidden" ++ toString i, List.replicate w.length "") :: mkHiddenCells ws (i + 1)

/-- `init_state(puzzle, grid)`; `state_id`/`start_time` oracles passed in. -/
def init_state (puzzle : Puzzle) (grid : GridSpec) (sid : String)
    (now : Nat) : GameState :=
  let grid_cells : GridBarId → List String :=
    fun bid => List.replicate (grid.bar_lengths bid) ""
  let hidden_answers :=
    if puzzle.answers_hidden = [] then [""] else puzzle.answers_hidden
  let hidden_cells := mkHiddenCells hidden_answers 1
  let clue_order : List BarRef :=
    GRID_ORDER.map (fun bid =>
      { scope := Scope.grid, bar_id := gridBarName bid,
        length := grid.bar_lengths bid })
    ++ hidden_cells.map (fun e =>
      { scope := Scope.hidden, bar_id := e.1, length := e.2.length })
  let puzzle_id := puzzle.meta_id.getD puzzle.filename
  { puzzle_id := puzzle_id
    state_id := sid
    grid_cells := grid_cells
    hidden_cells := hidden_cells
    active := { scope := Scope.grid, bar_id := "h1", index := 0,
                direction := Direction.horizontal }
    clue_order := clue_order
    start_time := now
    last_client_seq := 0
    last_action := "init" }

-- =====================================================================
-- engine.py : reducer helpers
-- =====================================================================

/-- `_clamp(i, lo, hi)`. -/
def _clamp (i lo hi : Int) : Int := max lo (min hi i)

/-- The `client_seq` extraction at the top of `reduce`
(`int(...)` with `except -> None`). -/
def clientSeqInt (payload : Payload) : Option Int :=
  match payload.client_seq with
  | some (PyIntLike.int n) => some n
  | some PyIntLike.nonNumeric => none
  | none => none

/-- The unconditional `last_client_seq` update at the end of `reduce`. -/
def _apply_seq (csi : Option Int) (out : GameState) : GameState :=
  match csi with
  | some n =>
      if n > out.last_client_seq then { out with last_client_seq := n } else out
  | none => out

/-- `_on_set_active(state, payload)`. -/
def _on_set_active (state : GameState) (payload : Payload) : GameState :=
  let scope0 := payload.scope.getD "grid"
  let bar0 := payload.bar_id.getD "h1"
  let idx_raw := payload.index
  let scope1 := if scope0 ≠ "grid" ∧ scope0 ≠ "hidden" then "grid" else scope0
  if scope1 = "grid" then
    let b := (parseGridBar bar0).getD GridBarId.h1
    let cells := state.grid_cells b
    let direction := _bar_direction (gridBarName b)
    let idx :=
      match idx_raw with
      | none => _first_empty_index cells
      | some (PyIntLike.int n) => _clamp n 0 (max 0 ((cells.length : Int) - 1))
      | some PyIntLike.nonNumeric => _clamp 0 0 (max 0 ((cells.length : Int) - 1))
    { state with
        active := { scope := Scope.grid, bar_id := gridBarName b,
                    index := idx, direction := direction }
        last_action := "set_active" }
  else
    let bar1 :=
      if lookupHidden state.hidden_cells bar0 = none then
        ((state.hidden_cells.head?.map (fun e => e.1)).getD "hidden1")
      else bar0
    let cells := (lookupHidden state.hidden_cells bar1).getD []
    let idx :=
      match idx_raw with
      | none => _first_empty_index cells
      | some (PyIntLike.int n) => _clamp n 0 (max 0 ((cells.length : Int) - 1))
      | some PyIntLike.nonNumeric => _clamp 0 0 (max 0 ((cells.length : Int) - 1))
    { state with
        active := { scope := Scope.hidden, bar_id := bar1,
                    index := idx, direction := Direction.horizontal }
        last_action := "set_active" }

/-- `_on_move(state, step)`. -/
def _on_move (state : GameState) (step : Int) : GameState :=
  let a := state.active
  let cells :=
    match a.scope with
    | Scope.grid =>
        match parseGridBar a.bar_id with
        | some b => state.grid_cells b
        | none => []
    | Scope.hidden => (lookupHidden state.hidden_cells a.bar_id).getD []
  if cells = [] then { state with last_action := "move:empty" }
  else
    let nxt := _clamp (a.index + step) 0 ((cells.length : Int) - 1)
    if nxt = a.index then { state with last_action := "move:edge" }
    else
      { state with active := { a with index := nxt }, last_action := "move" }

/-- Python whitespace test used by `str.strip()`. -/
def isPySpace (c : Char) : Bool :=
  c = ' ' || c = '\t' || c = '\n' || c = '\r' ||
  c = Char.ofNat 11 || c = Char.ofNat 12

/-- `str.upper()` (ASCII, which covers the validated inputs): uppercase
every character. -/
def pyUpper (s : String) : String := ⟨s.data.map Char.toUpper⟩

/-- `str.strip()`. -/
def pyStrip (s : String) : String :=
  ⟨((s.data.dropWhile isPySpace).reverse.dropWhile isPySpace).reverse⟩

/-- Lexicographic `<=` on strings as Python compares them. -/
def lexLe : List Char → List Char → Bool
  | [], _ => true
  | _ :: _, [] => false
  | a :: as, b :: bs =>
      if a < b then true else if a = b then lexLe as bs else false

/-- The guard `len(letter) == 1 and "A" <= letter <= "Z"`. -/
def _letter_ok (L : String) : Bool :=
  L.length == 1 && lexLe "A".data L.data && lexLe L.data "Z".data

/-- `_on_input_letter(state, payload, grid)`. -/
def _on_input_letter (state : GameState) (payload : Payload)
    (grid : GridSpec) : GameState :=
  let letter := pyStrip (pyUpper (payload.letter.getD ""))
  if ¬ (_letter_ok letter = true) then
    { state with last_action := "input:ignored" }
  else
    let a := state.active
    let bar_id := a.bar_id
    let idx := a.index
    match a.scope with
    | Scope.hidden =>
        match lookupHidden state.hidden_cells bar_id with
        | none => { state with last_action := "input:hidden_missing" }
        | some arr0 =>
            if idx < 0 ∨ (arr0.length : Int) ≤ idx then
              { state with last_action := "input:oob" }
            else
              let arr := arr0.set idx.toNat letter
              let new_hidden := updateHidden state.hidden_cells bar_id arr
              let out := { state with hidden_cells := new_hidden,
                                      last_action := "input:hidden" }
              _on_move out 1
    | Scope.grid =>
        match parseGridBar bar_id with
        | none => { state with last_action := "input:grid_missing" }
        | some b =>
            let arr0 := state.grid_cells b
            if idx < 0 ∨ (arr0.length : Int) ≤ idx then
              { state with last_action := "input:oob" }
            else
              let arr := arr0.set idx.toNat letter
              let new_grid := updateBar state.grid_cells b arr
              let new_grid2 :=
                match crossLookup grid (b, idx) with
                | some ov =>
                    let other_arr := new_grid ov.1
                    if 0 ≤ ov.2 ∧ ov.2 < (other_arr.length : Int) then
                      updateBar new_grid ov.1 (other_arr.set ov.2.toNat letter)
                    else new_grid
                | none => new_grid
              let out := { state with grid_cells := new_grid2,
                                      last_action := "input:grid" }
              _on_move out 1

/-- `clear_at(b, i, grid_cells)` (nested helper of `_on_backspace`). -/
def clear_at (grid : GridSpec) (b : GridBarId) (i : Int)
    (grid_cells : GridBarId → List String) : GridBarId → List String :=
  let a2 := grid_cells b
  if 0 ≤ i ∧ i < (a2.length : Int) then updateBar grid_cells b (a2.set i.toNat "")
  else grid_cells

/-- `clear_with_partner(b, i, grid_cells)` (nested helper of `_on_backspace`). -/
def clear_with_partner (grid : GridSpec) (b : GridBarId) (i : Int)
    (grid_cells : GridBarId → List String) : GridBarId → List String :=
  let out := clear_at grid b i grid_cells
  match crossLookup grid (b, i) with
  | some ov => clear_at grid ov.1 ov.2 out
  | none => out

/-- `_on_backspace(state, grid)`. -/
def _on_backspace (state : GameState) (grid : GridSpec) : GameState :=
  let a := state.active
  let bar_id := a.bar_id
  let idx0 := a.index
  match a.scope with
  | Scope.hidden =>
      match lookupHidden state.hidden_cells bar_id with
      | none => { state with last_action := "bksp:hidden_missing" }
      | some arr0 =>
          if arr0 = [] then { state with last_action := "bksp:hidden_empty" }
          else
            let idx := _clamp idx0 0 ((arr0.length : Int) - 1)
            if arr0.getD idx.toNat "" ≠ "" then
              let arr := arr0.set idx.toNat ""
              let new_hidden := updateHidden state.hidden_cells bar_id arr
              { state with hidden_cells := new_hidden,
                           last_action := "bksp:hidden_clear" }
            else if 0 < idx then
              let idx2 := idx - 1
              let arr := arr0.set idx2.toNat ""
              let new_hidden := updateHidden state.hidden_cells bar_id arr
              { state with hidden_cells := new_hidden,
                           active := { a with index := idx2 },
                           last_action := "bksp:hidden_prev_clear" }
            else { state with last_action := "bksp:hidden_edge" }
  | Scope.grid =>
      match parseGridBar bar_id with
      | none => { state with last_action := "bksp:grid_missing" }
      | some b =>
          let arr0 := state.grid_cells b
          if arr0 = [] then { state with last_action := "bksp:grid_empty" }
          else
            let idx := _clamp idx0 0 ((arr0.length : Int) - 1)
            if arr0.getD idx.toNat "" ≠ "" then
              { state with
                  grid_cells := clear_with_partner grid b idx state.grid_cells,
                  last_action := "bksp:grid_clear" }
            else if 0 < idx then
              let idx2 := idx - 1
              { state with
                  grid_cells := clear_with_partner grid b idx2 state.grid_cells,
                  active := { a with index := idx2 },
                  last_action := "bksp:grid_prev_clear" }
            else { state with last_action := "bksp:grid_edge" }

/-- `_on_reset(state)`; `state_id`/`start_time` oracles passed in. -/
def _on_reset (state : GameState) (freshId : String) (now : Nat) : GameState :=
  let new_grid : GridBarId → List String :=
    fun bid => (state.grid_cells bid).map (fun _ => "")
  let new_hidden :=
    state.hidden_cells.map (fun e => (e.1, e.2.map (fun _ => "")))
  { state with
      state_id := freshId
      grid_cells := new_grid
      hidden_cells := new_hidden
      active := { scope := Scope.grid, bar_id := "h1", index := 0,
                  direction := Direction.horizontal }
      start_time := now
      last_client_seq := 0
      last_action := "reset" }

/-- `reduce(state, event, grid)`: authoritative state transition. -/
def reduce (state : GameState) (event : GridEvent) (grid : GridSpec)
    (freshId : String) (now : Nat) : GameState :=
  let payload := event.payload
  let t := event.type
  let out :=
    if t = "INPUT_LETTER" then _on_input_letter state payload grid
    else if t = "MOVE_NEXT" then _on_move state 1
    else if t = "MOVE_PREV" then _on_move state (-1)
    else if t = "SET_ACTIVE_BAR" then _on_set_active state payload
    else if t = "BACKSPACE" then _on_backspace state grid
    else if t = "RESET" then _on_reset state freshId now
    else if t = "TICK" then state
    else { state with last_action := "ignored:" ++ t }
  _apply_seq (clientSeqInt payload) out

-- =====================================================================
-- Derived queries (engine.py)
-- =====================================================================

/-- `derive_intersection_letters(state, grid)`. -/
def derive_intersection_letters (state : GameState) (grid : GridSpec) :
    List String :=
  grid.intersections.map (fun p => (state.grid_cells p.1).getD p.2.toNat "")

/-- `is_complete(state)`. -/
def is_complete (state : GameState) : Bool :=
  (GRID_ORDER.all (fun bid => (state.grid_cells bid).all (fun ch => ch ≠ "")))
  && state.hidden_cells.all (fun e => e.2.all (fun ch => ch ≠ ""))

-- =====================================================================
-- State invariants (spec section 3) and reachability
-- =====================================================================

/-- The letter stored at grid position `(b, i)`. -/
def cellVal (g : GridBarId → List String) (p : GridBarId × Int) : String :=
  (g p.1).getD p.2.toNat ""

/-- Cross-link synchronization: every `cross_map` pair holds equal letters. -/
def CrossSync (g : GridBarId → List String) : Prop :=
  ∀ k v, crossLookup septagoSpec k = some v → cellVal g k = cellVal g v

/-- Every grid bar's cell array has length 7. -/
def gridLens (g : GridBarId → List String) : Bool :=
  GRID_ORDER.all (fun b => (g b).length == 7)

/-- The hidden dict is non-empty and every hidden bar is non-empty
(guaranteed by puzzle validation, spec section 4.2). -/
def HiddenOK (h : List (String × List String)) : Prop :=
  h ≠ [] ∧ ∀ e ∈ h, e.2 ≠ []

/-- The active cursor references an existing bar and an in-range index. -/
def activeOK (s : GameState) : Bool :=
  match s.active.scope with
  | Scope.grid =>
      match parseGridBar s.active.bar_id with
      | some b =>
          decide (0 ≤ s.active.index) &&
          decide (s.active.index < ((s.grid_cells b).length : Int))
      | none => false
  | Scope.hidden =>
      match lookupHidden s.hidden_cells s.active.bar_id with
      | some arr =>
          decide (0 ≤ s.active.index) &&
          decide (s.active.index < (arr.length : Int))
      | none => false

/-- All section-3 state invariants together. -/
def StateInv (s : GameState) : Prop :=
  gridLens s.grid_cells = true ∧ HiddenOK s.hidden_cells ∧
  CrossSync s.grid_cells ∧ activeOK s = true

/-- The validation facts about `answers.hidden` (spec section 4.2) that
the engine relies on: one-or-two hidden answers, each non-empty. -/
def ValidPuzzle (p : Puzzle) : Prop :=
  (p.answers_hidden.length = 1 ∨ p.answers_hidden.length = 2)
  ∧ ∀ w ∈ p.answers_hidden, w ≠ ""

/-- Fold a list of events (each with its id/time oracles) through `reduce`
over the fixed geometry. -/
def runEvents (s : GameState) (l : List (GridEvent × String × Nat)) :
    GameState :=
  l.foldl (fun st x => reduce st x.1 septagoSpec x.2.1 x.2.2) s

/-- `s` is reachable from `s0` by a finite sequence of reductions. -/
def ReachableFrom (s0 s : GameState) : Prop := ∃ l, s = runEvents s0 l

/-- The cell array the active cursor refers to (as `_on_move` computes it). -/
def barCells (s : GameState) (a : ActiveRef) : List String :=
  match a.scope with
  | Scope.grid =>
      match parseGridBar a.bar_id with
      | some b => s.grid_cells b
      | none => []
  | Scope.hidden => (lookupHidden s.hidden_cells a.bar_id).getD []

/-- The letter currently under cursor `a` in state `s`. -/
def activeCellVal (s : GameState) (a : ActiveRef) : String :=
  (barCells s a).getD a.index.toNat ""

-- =====================================================================
-- Toolkit lemmas
-- =====================================================================

theorem getD_set_self {l : List String} {i : Nat} {a d : String}
    (h : i < l.length) : (l.set i a).getD i d = a := by
  simp [List.getD, List.getElem?_set_self', h]

theorem getD_set_ne {l : List String} {i j : Nat} (a d : String)
    (h : i ≠ j) : (l.set i a).getD j d = l.getD j d := by
  simp [List.getD, List.getElem?_set_ne h]

theorem getD_map_const_empty (l : List String) (i : Nat) :
    ((l.map (fun _ => "")).getD i "") = "" := by
  simp [List.getD, List.getElem?_map]

theorem getD_replicate_empty (n i : Nat) :
    ((List.replicate n "").getD i "") = "" := by
  simp [List.getD, List.getElem?_replicate]
  split <;> simp

theorem clamp_bounds {i lo hi : Int} (h : lo ≤ hi) :
    lo ≤ _clamp i lo hi ∧ _clamp i lo hi ≤ hi := by
  unfold _clamp; omega

theorem clamp_id {i lo hi : Int} (h1 : lo ≤ i) (h2 : i ≤ hi) :
    _clamp i lo hi = i := by
  unfold _clamp; omega

theorem findIdx_some_lt (p : α → Bool) :
    ∀ (l : List α) (i : Nat), l.findIdx? p = some i → i < l.length := by
  intro l
  induction l with
  | nil => intro i h; simp [List.findIdx?] at h
  | cons x xs ih =>
      intro i h
      rw [List.findIdx?_cons] at h
      by_cases hp : p x
      · simp [hp] at h; simp [← h]
      · simp [hp] at h
        obtain ⟨j, hj, rfl⟩ := h
        have := ih j hj
        simp
        omega

theorem first_empty_bounds {cells : List String} (h : cells ≠ []) :
    0 ≤ _first_empty_index cells ∧
    _first_empty_index cells < (cells.length : Int) := by
  unfold _first_empty_index
  cases hf : cells.findIdx? (fun ch => decide (ch = "")) with
  | none =>
      have hpos : 0 < cells.length := List.length_pos.mpr h
      dsimp only
      omega
  | some i =>
      have hlt := findIdx_some_lt _ cells i hf
      dsimp only
      omega

theorem gridLens_length {g : GridBarId → List String}
    (h : gridLens g = true) (b : GridBarId) : (g b).length = 7 := by
  have hb : b ∈ GRID_ORDER := by cases b <;> simp [GRID_ORDER]
  simp [gridLens, List.all_eq_true] at h
  exact h b hb

theorem gridLens_update {g : GridBarId → List String}
    (h : gridLens g = true) (b : GridBarId) (arr : List String)
    (harr : arr.length = 7) : gridLens (updateBar g b arr) = true := by
  simp [gridLens, List.all_eq_true] at h ⊢
  intro b' hb'
  unfold updateBar
  split
  · exact harr
  · exact h b' hb'

-- =====================================================================
-- Geometry facts (all finite, settled by evaluation)
-- =====================================================================

theorem cross_entry_facts : ∀ e ∈ septagoSpec.cross_map,
    crossLookup septagoSpec e.2 = some e.1
  ∧ e.1.1 ≠ e.2.1
  ∧ 0 ≤ e.1.2 ∧ e.1.2 < 7 ∧ 0 ≤ e.2.2 ∧ e.2.2 < 7 := by decide

theorem crossLookup_mem {k v : GridBarId × Int}
    (h : crossLookup septagoSpec k = some v) :
    (k, v) ∈ septagoSpec.cross_map := by
  unfold crossLookup at h
  cases hf : septagoSpec.cross_map.find? (fun e => decide (e.1 = k)) with
  | none => rw [hf] at h; simp at h
  | some e =>
      rw [hf] at h
      simp at h
      have hm := List.mem_of_find?_eq_some hf
      have hp := List.find?_some hf
      simp at hp
      have : e = (k, v) := by
        cases e; simp_all
      rw [this] at hm
      exact hm

theorem cross_symm {k v : GridBarId × Int}
    (h : crossLookup septagoSpec k = some v) :
    crossLookup septagoSpec v = some k :=
  (cross_entry_facts (k, v) (crossLookup_mem h)).1

theorem cross_bar_ne {k v : GridBarId × Int}
    (h : crossLookup septagoSpec k = some v) : k.1 ≠ v.1 :=
  (cross_entry_facts (k, v) (crossLookup_mem h)).2.1

theorem cross_range {k v : GridBarId × Int}
    (h : crossLookup septagoSpec k = some v) :
    0 ≤ k.2 ∧ k.2 < 7 ∧ 0 ≤ v.2 ∧ v.2 < 7 := by
  have h1 := (cross_entry_facts (k, v) (crossLookup_mem h)).2.2
  exact ⟨h1.1, h1.2.1, h1.2.2.1, h1.2.2.2⟩

-- =====================================================================
-- Reducer dispatch lemmas
-- =====================================================================

theorem reduce_eq_input {e : GridEvent} (he : e.type = "INPUT_LETTER")
    (s : GameState) (g : GridSpec) (fid : String) (now : Nat) :
    reduce s e g fid now
      = _apply_seq (clientSeqInt e.payload) (_on_input_letter s e.payload g) := by
  unfold reduce
  rw [he]
  rfl

theorem reduce_eq_move_next {e : GridEvent} (he : e.type = "MOVE_NEXT")
    (s : GameState) (g : GridSpec) (fid : String) (now : Nat) :
    reduce s e g fid now
      = _apply_seq (clientSeqInt e.payload) (_on_move s 1) := by
  unfold reduce
  rw [he]
  rfl

theorem reduce_eq_move_prev {e : GridEvent} (he : e.type = "MOVE_PREV")
    (s : GameState) (g : GridSpec) (fid : String) (now : Nat) :
    reduce s e g fid now
      = _apply_seq (clientSeqInt e.payload) (_on_move s (-1)) := by
  unfold reduce
  rw [he]
  rfl

theorem reduce_eq_set_active {e : GridEvent} (he : e.type = "SET_ACTIVE_BAR")
    (s : GameState) (g : GridSpec) (fid : String) (now : Nat) :
    reduce s e g fid now
      = _apply_seq (clientSeqInt e.payload) (_on_set_active s e.payload) := by
  unfold reduce
  rw [he]
  rfl

theorem reduce_eq_backspace {e : GridEvent} (he : e.type = "BACKSPACE")
    (s : GameState) (g : GridSpec) (fid : String) (now : Nat) :
    reduce s e g fid now
      = _apply_seq (clientSeqInt e.payload) (_on_backspace s g) := by
  unfold reduce
  rw [he]
  rfl

theorem reduce_eq_reset {e : GridEvent} (he : e.type = "RESET")
    (s : GameState) (g : GridSpec) (fid : String) (now : Nat) :
    reduce s e g fid now
      = _apply_seq (clientSeqInt e.payload) (_on_reset s fid now) := by
  unfold reduce
  rw [he]
  rfl

theorem reduce_eq_tick {e : GridEvent} (he : e.type = "TICK")
    (s : GameState) (g : GridSpec) (fid : String) (now : Nat) :
    reduce s e g fid now = _apply_seq (clientSeqInt e.payload) s := by
  unfold reduce
  rw [he]
  rfl

theorem reduce_eq_other {e : GridEvent}
    (h1 : e.type ≠ "INPUT_LETTER") (h2 : e.type ≠ "MOVE_NEXT")
    (h3 : e.type ≠ "MOVE_PREV") (h4 : e.type ≠ "SET_ACTIVE_BAR")
    (h5 : e.type ≠ "BACKSPACE") (h6 : e.type ≠ "RESET")
    (h7 : e.type ≠ "TICK")
    (s : GameState) (g : GridSpec) (fid : String) (now : Nat) :
    reduce s e g fid now
      = _apply_seq (clientSeqInt e.payload)
          { s with last_action := "ignored:" ++ e.type } := by
  simp only [reduce]
  rw [if_neg h1, if_neg h2, if_neg h3, if_neg h4, if_neg h5, if_neg h6,
      if_neg h7]

theorem apply_seq_frame (csi : Option Int) (out : GameState) :
    (_apply_seq csi out).puzzle_id = out.puzzle_id
  ∧ (_apply_seq csi out).state_id = out.state_id
  ∧ (_apply_seq csi out).grid_cells = out.grid_cells
  ∧ (_apply_seq csi out).hidden_cells = out.hidden_cells
  ∧ (_apply_seq csi out).active = out.active
  ∧ (_apply_seq csi out).clue_order = out.clue_order
  ∧ (_apply_seq csi out).start_time = out.start_time
  ∧ (_apply_seq csi out).last_action = out.last_action := by
  unfold _apply_seq
  cases csi with
  | none => exact ⟨rfl, rfl, rfl, rfl, rfl, rfl, rfl, rfl⟩
  | some n =>
      dsimp only
      split
      · exact ⟨rfl, rfl, rfl, rfl, rfl, rfl, rfl, rfl⟩
      · exact ⟨rfl, rfl, rfl, rfl, rfl, rfl, rfl, rfl⟩

theorem apply_seq_last (csi : Option Int) (out : GameState) :
    (_apply_seq csi out).last_client_seq
      = match csi with
        | some n => max out.last_client_seq n
        | none => out.last_client_seq := by
  unfold _apply_seq
  cases csi with
  | none => rfl
  | some n =>
      dsimp only
      split
      · simp; omega
      · simp; omega

theorem activeOK_congr {s t : GameState} (h1 : t.active = s.active)
    (h2 : t.grid_cells = s.grid_cells) (h3 : t.hidden_cells = s.hidden_cells) :
    activeOK t = activeOK s := by
  unfold activeOK
  rw [h1, h2, h3]

theorem on_move_frame (s : GameState) (st : Int) :
    (_on_move s st).grid_cells = s.grid_cells
  ∧ (_on_move s st).hidden_cells = s.hidden_cells
  ∧ (_on_move s st).state_id = s.state_id
  ∧ (_on_move s st).puzzle_id = s.puzzle_id
  ∧ (_on_move s st).clue_order = s.clue_order
  ∧ (_on_move s st).start_time = s.start_time
  ∧ (_on_move s st).last_client_seq = s.last_client_seq
  ∧ (_on_move s st).active.scope = s.active.scope
  ∧ (_on_move s st).active.bar_id = s.active.bar_id
  ∧ (_on_move s st).active.direction = s.active.direction := by
  unfold _on_move
  dsimp only
  split
  · exact ⟨rfl, rfl, rfl, rfl, rfl, rfl, rfl, rfl, rfl, rfl⟩
  · split
    · exact ⟨rfl, rfl, rfl, rfl, rfl, rfl, rfl, rfl, rfl, rfl⟩
    · exact ⟨rfl, rfl, rfl, rfl, rfl, rfl, rfl, rfl, rfl, rfl⟩

theorem on_move_activeOK (s : GameState) (st : Int) (h : activeOK s = true) :
    activeOK (_on_move s st) = true := by
  unfold activeOK at h ⊢
  unfold _on_move
  cases hsc : s.active.scope with
  | grid =>
      rw [hsc] at h
      cases hb : parseGridBar s.active.bar_id with
      | none => rw [hb] at h; simp at h
      | some b =>
          rw [hb] at h
          simp only [Bool.and_eq_true, decide_eq_true_eq] at h
          obtain ⟨h0, h1⟩ := h
          simp only [hsc, hb]
          have hne : s.grid_cells b ≠ [] := by
            intro hnil
            rw [hnil] at h1
            simp at h1
            omega
          rw [if_neg hne]
          by_cases heq :
              _clamp (s.active.index + st) 0 (((s.grid_cells b).length : Int) - 1)
                = s.active.index
          · rw [if_pos heq]
            simp only [hsc, hb]
            simp [h0, h1]
          · rw [if_neg heq]
            simp only [hsc, hb]
            have hcl := @clamp_bounds (s.active.index + st) 0
              (((s.grid_cells b).length : Int) - 1)
              (by
                have : 0 < (s.grid_cells b).length := by
                  cases hn : s.grid_cells b with
                  | nil => exact absurd hn hne
                  | cons x xs => simp
                omega)
            simp only [Bool.and_eq_true, decide_eq_true_eq]
            constructor
            · omega
            · omega
  | hidden =>
      rw [hsc] at h
      cases hb : lookupHidden s.hidden_cells s.active.bar_id with
      | none => rw [hb] at h; simp at h
      | some arr =>
          rw [hb] at h
          simp only [Bool.and_eq_true, decide_eq_true_eq] at h
          obtain ⟨h0, h1⟩ := h
          simp only [hsc, hb]
          have hne : arr ≠ [] := by
            intro hnil
            rw [hnil] at h1
            simp at h1
            omega
          simp only [Option.getD_some]
          rw [if_neg hne]
          by_cases heq :
              _clamp (s.active.index + st) 0 ((arr.length : Int) - 1)
                = s.active.index
          · rw [if_pos heq]
            simp only [hsc, hb]
            simp [h0, h1]
          · rw [if_neg heq]
            simp only [hsc, hb]
            have hcl := @clamp_bounds (s.active.index + st) 0
              (((arr.length : Int) - 1))
              (by
                have : 0 < arr.length := by
                  cases hn : arr with
                  | nil => exact absurd hn hne
                  | cons x xs => simp
                omega)
            simp only [Bool.and_eq_true, decide_eq_true_eq]
            constructor
            · omega
            · omega

theorem parse_gridBarName (b : GridBarId) :
    parseGridBar (gridBarName b) = some b := by
  cases b <;> rfl

theorem lookupHidden_cons_self (e : String × List String)
    (t : List (String × List String)) :
    lookupHidden (e :: t) e.1 = some e.2 := by
  simp [lookupHidden, List.find?]

theorem lookupHidden_some_mem {h : List (String × List String)} {k : String}
    {arr : List String} (hf : lookupHidden h k = some arr) :
    ∃ e ∈ h, e.2 = arr := by
  unfold lookupHidden at hf
  cases hfind : h.find? (fun e => decide (e.1 = k)) with
  | none => rw [hfind] at hf; simp at hf
  | some e =>
      rw [hfind] at hf
      simp at hf
      exact ⟨e, List.mem_of_find?_eq_some hfind, hf⟩

theorem hidden_resolve (h : List (String × List String)) (hH : HiddenOK h)
    (bar0 : String) :
    ∃ arr, lookupHidden h
      (if lookupHidden h bar0 = none
       then ((h.head?.map (fun e => e.1)).getD "hidden1") else bar0)
      = some arr ∧ arr ≠ [] := by
  obtain ⟨hne, hall⟩ := hH
  by_cases hlk : lookupHidden h bar0 = none
  · rw [if_pos hlk]
    cases h with
    | nil => exact absurd rfl hne
    | cons e t =>
        refine ⟨e.2, ?_, hall e (List.mem_cons_self e t)⟩
        simp only [List.head?, Option.map_some', Option.getD_some]
        exact lookupHidden_cons_self e t
  · rw [if_neg hlk]
    cases harr : lookupHidden h bar0 with
    | none => exact absurd harr hlk
    | some arr =>
        obtain ⟨e, hmem, hev⟩ := lookupHidden_some_mem harr
        exact ⟨arr, rfl, hev ▸ hall e hmem⟩

theorem set_idx_bounds (cells : List String) (hne : cells ≠ [])
    (idx_raw : Option PyIntLike) :
    0 ≤ (match idx_raw with
         | none => _first_empty_index cells
         | some (PyIntLike.int n) =>
             _clamp n 0 (max 0 ((cells.length : Int) - 1))
         | some PyIntLike.nonNumeric =>
             _clamp 0 0 (max 0 ((cells.length : Int) - 1)))
  ∧ (match idx_raw with
     | none => _first_empty_index cells
     | some (PyIntLike.int n) =>
         _clamp n 0 (max 0 ((cells.length : Int) - 1))
     | some PyIntLike.nonNumeric =>
         _clamp 0 0 (max 0 ((cells.length : Int) - 1)))
      < (cells.length : Int) := by
  have hpos : 0 < cells.length := List.length_pos.mpr hne
  cases idx_raw with
  | none =>
      have := first_empty_bounds hne
      dsimp only
      omega
  | some v =>
      cases v with
      | int n => dsimp only; unfold _clamp; omega
      | nonNumeric => dsimp only; unfold _clamp; omega

theorem activeOK_grid_set (s : GameState) (b : GridBarId) (idx : Int)
    (d : Direction) (la : String) (h0 : 0 ≤ idx)
    (h1 : idx < ((s.grid_cells b).length : Int)) :
    activeOK { s with
      active := { scope := Scope.grid, bar_id := gridBarName b,
                  index := idx, direction := d },
      last_action := la } = true := by
  unfold activeOK
  dsimp only
  rw [parse_gridBarName]
  dsimp only
  simp only [Bool.and_eq_true, decide_eq_true_eq]
  exact ⟨h0, h1⟩

theorem activeOK_hidden_set (s : GameState) (bar : String)
    (arr : List String) (hlk : lookupHidden s.hidden_cells bar = some arr)
    (idx : Int) (la : String) (h0 : 0 ≤ idx)
    (h1 : idx < (arr.length : Int)) :
    activeOK { s with
      active := { scope := Scope.hidden, bar_id := bar,
                  index := idx, direction := Direction.horizontal },
      last_action := la } = true := by
  unfold activeOK
  dsimp only
  rw [hlk]
  simp only [Bool.and_eq_true, decide_eq_true_eq]
  exact ⟨h0, h1⟩

theorem on_set_active_frame (s : GameState) (pl : Payload) :
    (_on_set_active s pl).grid_cells = s.grid_cells
  ∧ (_on_set_active s pl).hidden_cells = s.hidden_cells
  ∧ (_on_set_active s pl).state_id = s.state_id
  ∧ (_on_set_active s pl).puzzle_id = s.puzzle_id
  ∧ (_on_set_active s pl).clue_order = s.clue_order
  ∧ (_on_set_active s pl).start_time = s.start_time
  ∧ (_on_set_active s pl).last_client_seq = s.last_client_seq := by
  unfold _on_set_active
  dsimp only
  split <;> split <;> exact ⟨rfl, rfl, rfl, rfl, rfl, rfl, rfl⟩

theorem on_set_active_activeOK (s : GameState) (pl : Payload)
    (hG : gridLens s.grid_cells = true) (hH : HiddenOK s.hidden_cells) :
    activeOK (_on_set_active s pl) = true := by
  have hgrid : ∀ bar0 : String,
      activeOK { s with
        active := { scope := Scope.grid,
                    bar_id := gridBarName ((parseGridBar bar0).getD GridBarId.h1),
                    index :=
            (match pl.index with
             | none => _first_empty_index
                 (s.grid_cells ((parseGridBar bar0).getD GridBarId.h1))
             | some (PyIntLike.int n) =>
                 _clamp n 0 (max 0
                   (((s.grid_cells ((parseGridBar bar0).getD GridBarId.h1)).length : Int) - 1))
             | some PyIntLike.nonNumeric =>
                 _clamp 0 0 (max 0
                   (((s.grid_cells ((parseGridBar bar0).getD GridBarId.h1)).length : Int) - 1))),
                    direction := _bar_direction
                      (gridBarName ((parseGridBar bar0).getD GridBarId.h1)) },
        last_action := "set_active" } = true := by
    intro bar0
    have hlen := gridLens_length hG ((parseGridBar bar0).getD GridBarId.h1)
    have hne : s.grid_cells ((parseGridBar bar0).getD GridBarId.h1) ≠ [] := by
      intro hnil
      rw [hnil] at hlen
      simp at hlen
    have hb := set_idx_bounds (s.grid_cells ((parseGridBar bar0).getD GridBarId.h1))
      hne pl.index
    exact activeOK_grid_set s _ _ _ _ hb.1 hb.2
  have hhid : ∀ bar0 : String,
      activeOK { s with
        active := { scope := Scope.hidden,
                    bar_id :=
            (if lookupHidden s.hidden_cells bar0 = none
             then ((s.hidden_cells.head?.map (fun e => e.1)).getD "hidden1")
             else bar0),
                    index :=
            (match pl.index with
             | none => _first_empty_index
                 ((lookupHidden s.hidden_cells
                    (if lookupHidden s.hidden_cells bar0 = none
                     then ((s.hidden_cells.head?.map (fun e => e.1)).getD "hidden1")
                     else bar0)).getD [])
             | some (PyIntLike.int n) =>
                 _clamp n 0 (max 0
                   ((((lookupHidden s.hidden_cells
                       (if lookupHidden s.hidden_cells bar0 = none
                        then ((s.hidden_cells.head?.map (fun e => e.1)).getD "hidden1")
                        else bar0)).getD []).length : Int) - 1))
             | some PyIntLike.nonNumeric =>
                 _clamp 0 0 (max 0
                   ((((lookupHidden s.hidden_cells
                       (if lookupHidden s.hidden_cells bar0 = none
                        then ((s.hidden_cells.head?.map (fun e => e.1)).getD "hidden1")
                        else bar0)).getD []).length : Int) - 1))),
                    direction := Direction.horizontal },
        last_action := "set_active" } = true := by
    intro bar0
    obtain ⟨arr, hlk, harrne⟩ := hidden_resolve s.hidden_cells hH bar0
    rw [hlk]
    simp only [Option.getD_some]
    have hb := set_idx_bounds arr harrne pl.index
    exact activeOK_hidden_set s _ arr hlk _ _ hb.1 hb.2
  unfold _on_set_active
  dsimp only
  split
  · split
    · exact hgrid (pl.bar_id.getD "h1")
    · next hcontra => exact absurd rfl hcontra
  · split
    · exact hgrid (pl.bar_id.getD "h1")
    · exact hhid (pl.bar_id.getD "h1")

theorem updateBar_self (g : GridBarId → List String) (b : GridBarId)
    (arr : List String) : updateBar g b arr b = arr := by
  simp [updateBar]

theorem updateBar_ne (g : GridBarId → List String) {b b' : GridBarId}
    (arr : List String) (h : b' ≠ b) : updateBar g b arr b' = g b' := by
  simp [updateBar, h]

theorem length_updateBar_set (g : GridBarId → List String) (b : GridBarId)
    (i : Nat) (x : String) (b' : GridBarId) :
    (updateBar g b ((g b).set i x) b').length = (g b').length := by
  unfold updateBar
  split
  · next h => rw [h]; exact List.length_set _ _ _
  · rfl

theorem cellVal_update_set (g : GridBarId → List String) (b : GridBarId)
    (i : Int) (x : String) (hi0 : 0 ≤ i) (hilen : i < ((g b).length : Int))
    (p : GridBarId × Int) (hp0 : 0 ≤ p.2) :
    cellVal (updateBar g b ((g b).set i.toNat x)) p
      = if p = (b, i) then x else cellVal g p := by
  unfold cellVal updateBar
  by_cases hb : p.1 = b
  · rw [if_pos hb]
    by_cases hi : p.2 = i
    · have hpk : p = (b, i) := Prod.ext hb hi
      rw [if_pos hpk, hi]
      exact getD_set_self (by omega)
    · have hpk : p ≠ (b, i) := by
        intro hc
        exact hi (congrArg Prod.snd hc)
      rw [if_neg hpk]
      rw [getD_set_ne _ _ (by omega)]
      rw [hb]
  · rw [if_neg hb, if_neg (fun hc => hb (congrArg Prod.fst hc))]

theorem sync_keys_eq {g g' : GridBarId → List String} (hs : CrossSync g)
    (h : ∀ p q, crossLookup septagoSpec p = some q →
          cellVal g' p = cellVal g p) : CrossSync g' := by
  intro p q hpq
  rw [h p q hpq, h q p (cross_symm hpq)]
  exact hs p q hpq

theorem sync_write_pair {g g' : GridBarId → List String} (hs : CrossSync g)
    {k v : GridBarId × Int} (hkv : crossLookup septagoSpec k = some v)
    (x : String)
    (h : ∀ p q, crossLookup septagoSpec p = some q →
          cellVal g' p = if p = k ∨ p = v then x else cellVal g p) :
    CrossSync g' := by
  intro p q hpq
  have hsym := cross_symm hpq
  by_cases hpk : p = k
  · subst hpk
    have hqv : q = v := by
      rw [hpq] at hkv
      exact Option.some.inj hkv
    subst hqv
    rw [h p q hpq, h q p hsym, if_pos (Or.inl rfl), if_pos (Or.inr rfl)]
  · by_cases hpv : p = v
    · subst hpv
      have hqk : q = k := by
        have hvk := cross_symm hkv
        rw [hpq] at hvk
        exact Option.some.inj hvk
      subst hqk
      rw [h p q hpq, h q p hsym, if_pos (Or.inr rfl), if_pos (Or.inl rfl)]
    · have hqk : q ≠ k := by
        intro hc
        subst hc
        rw [hkv] at hsym
        exact hpv (Option.some.inj hsym).symm
      have hqv : q ≠ v := by
        intro hc
        subst hc
        have hvk := cross_symm hkv
        rw [hvk] at hsym
        exact hpk (Option.some.inj hsym).symm
      rw [h p q hpq, h q p hsym,
          if_neg (by rintro (hc | hc) <;> contradiction),
          if_neg (by rintro (hc | hc) <;> contradiction)]
      exact hs p q hpq

theorem lookupHidden_update_self {h : List (String × List String)}
    {k : String} (arr : List String) (hex : lookupHidden h k ≠ none) :
    lookupHidden (updateHidden h k arr) k = some arr := by
  induction h with
  | nil => simp [lookupHidden] at hex
  | cons e t ih =>
      by_cases he : e.1 = k
      · simp [updateHidden, lookupHidden, List.find?, he]
      · have hex2 : lookupHidden t k ≠ none := by
          simpa [lookupHidden, List.find?, he] using hex
        have := ih hex2
        simpa [updateHidden, lookupHidden, List.find?, he] using this

theorem lookupHidden_update_ne {h : List (String × List String)}
    {k k2 : String} (arr : List String) (hne : k2 ≠ k) :
    lookupHidden (updateHidden h k arr) k2 = lookupHidden h k2 := by
  induction h with
  | nil => simp [updateHidden, lookupHidden]
  | cons e t ih =>
      by_cases he : e.1 = k
      · have he2 : ¬ (e.1 = k2) := by
          rw [he]
          exact fun hc => hne hc.symm
        simp only [updateHidden, List.map_cons, if_pos he]
        simp only [lookupHidden, List.find?]
        simp only [he2, decide_eq_false, Bool.false_eq_true]
        simpa [updateHidden, lookupHidden] using ih
      · by_cases he2 : e.1 = k2
        · simp only [updateHidden, List.map_cons, if_neg he]
          simp [lookupHidden, List.find?, he2]
        · simp only [updateHidden, List.map_cons, if_neg he]
          simp only [lookupHidden, List.find?]
          simp only [he2, decide_eq_false, Bool.false_eq_true]
          simpa [updateHidden, lookupHidden] using ih

theorem hiddenOK_update {h : List (String × List String)} {k : String}
    {arr : List String} (hH : HiddenOK h) (harr : arr ≠ []) :
    HiddenOK (updateHidden h k arr) := by
  obtain ⟨hne, hall⟩ := hH
  constructor
  · simp [updateHidden, hne]
  · intro e he
    simp only [updateHidden, List.mem_map] at he
    obtain ⟨e0, he0, heq⟩ := he
    by_cases hk : e0.1 = k
    · rw [← heq]
      simp [hk, harr]
    · rw [← heq]
      simp only [if_neg hk]
      exact hall e0 he0

theorem input_invalid_eq (s : GameState) (pl : Payload) (g : GridSpec)
    (hok : _letter_ok (pyStrip (pyUpper (pl.letter.getD ""))) = false) :
    _on_input_letter s pl g = { s with last_action := "input:ignored" } := by
  unfold _on_input_letter
  dsimp only
  rw [if_pos (by simp [hok])]

theorem input_hidden_eq (s : GameState) (pl : Payload) (arr : List String)
    (hsc : s.active.scope = Scope.hidden)
    (hlk : lookupHidden s.hidden_cells s.active.bar_id = some arr)
    (h0 : 0 ≤ s.active.index) (h1 : s.active.index < (arr.length : Int))
    (hok : _letter_ok (pyStrip (pyUpper (pl.letter.getD ""))) = true) :
    _on_input_letter s pl septagoSpec
      = _on_move { s with
          hidden_cells := updateHidden s.hidden_cells s.active.bar_id
            (arr.set s.active.index.toNat
              (pyStrip (pyUpper (pl.letter.getD "")))),
          last_action := "input:hidden" } 1 := by
  unfold _on_input_letter
  dsimp only
  rw [if_neg (by simp [hok])]
  simp only [hsc, hlk]
  rw [if_neg (by omega)]

theorem input_grid_main (s : GameState) (pl : Payload) (b : GridBarId)
    (hG : gridLens s.grid_cells = true)
    (hsc : s.active.scope = Scope.grid)
    (hb : parseGridBar s.active.bar_id = some b)
    (h0 : 0 ≤ s.active.index)
    (h1 : s.active.index < ((s.grid_cells b).length : Int))
    (hok : _letter_ok (pyStrip (pyUpper (pl.letter.getD ""))) = true)
    (P : GameState → Prop)
    (hP : ∀ g2 : GridBarId → List String,
        (∀ p : GridBarId × Int, 0 ≤ p.2 →
           cellVal g2 p =
             if p = (b, s.active.index)
                ∨ crossLookup septagoSpec (b, s.active.index) = some p
             then pyStrip (pyUpper (pl.letter.getD ""))
             else cellVal s.grid_cells p) →
        (∀ b2, (g2 b2).length = (s.grid_cells b2).length) →
        P (_on_move { s with grid_cells := g2,
                             last_action := "input:grid" } 1)) :
    P (_on_input_letter s pl septagoSpec) := by
  unfold _on_input_letter
  dsimp only
  rw [if_neg (by simp [hok])]
  simp only [hsc, hb]
  rw [if_neg (by omega)]
  cases hcr : crossLookup septagoSpec (b, s.active.index) with
  | none =>
      simp only [hcr]
      apply hP
      · intro p hp
        have hcond : (p = (b, s.active.index)
              ∨ crossLookup septagoSpec (b, s.active.index) = some p)
            = (p = (b, s.active.index)) := by
          rw [hcr]
          simp
        simp only [hcond]
        exact cellVal_update_set s.grid_cells b s.active.index _ h0 h1 p hp
      · intro b2
        exact length_updateBar_set s.grid_cells b _ _ b2
  | some ov =>
      simp only [hcr]
      have hbne : ov.1 ≠ b := (cross_bar_ne hcr).symm
      have hrange := cross_range hcr
      have hg1len :
          ((updateBar s.grid_cells b
              ((s.grid_cells b).set s.active.index.toNat
                (pyStrip (pyUpper (pl.letter.getD "")))) ov.1).length)
            = (s.grid_cells ov.1).length := by
        rw [updateBar_ne _ _ hbne]
      have hlen7 := gridLens_length hG ov.1
      rw [if_pos (by rw [hg1len, hlen7]; exact ⟨hrange.2.2.1, by omega⟩)]
      apply hP
      · intro p hp
        rw [cellVal_update_set _ ov.1 ov.2 _ hrange.2.2.1
              (by rw [hg1len, hlen7]; omega) p hp]
        rw [cellVal_update_set s.grid_cells b s.active.index _ h0 h1 p hp]
        have heta : (ov.1, ov.2) = ov := rfl
        simp only [heta, hcr, Option.some.injEq]
        by_cases hpv : p = ov
        · simp [hpv]
        · have hov : ¬ (ov = p) := fun hc => hpv hc.symm
          by_cases hpk : p = (b, s.active.index)
          · simp [hpv, hpk, hov]
          · simp [hpv, hpk, hov]
      · intro b2
        by_cases hb2 : b2 = ov.1
        · subst hb2
          rw [length_updateBar_set]
          exact hg1len ▸ length_updateBar_set s.grid_cells b _ _ ov.1
        · rw [length_updateBar_set, length_updateBar_set]

theorem clear_at_length (g : GridBarId → List String) (b : GridBarId)
    (i : Int) (b2 : GridBarId) :
    (clear_at septagoSpec b i g b2).length = (g b2).length := by
  unfold clear_at
  split
  · exact length_updateBar_set g b _ _ b2
  · rfl

theorem clear_at_eq (g : GridBarId → List String) (b : GridBarId) (i : Int)
    (h0 : 0 ≤ i) (h1 : i < ((g b).length : Int)) :
    clear_at septagoSpec b i g = updateBar g b ((g b).set i.toNat "") := by
  unfold clear_at
  rw [if_pos ⟨h0, h1⟩]

theorem cwp_length (g : GridBarId → List String) (b : GridBarId) (i : Int)
    (b2 : GridBarId) :
    (clear_with_partner septagoSpec b i g b2).length = (g b2).length := by
  unfold clear_with_partner
  cases hcr : crossLookup septagoSpec (b, i) with
  | none =>
      try simp only [hcr]
      exact clear_at_length g b i b2
  | some ov =>
      try simp only [hcr]
      rw [clear_at_length, clear_at_length]

theorem cwp_cellVal (g : GridBarId → List String)
    (hG : gridLens g = true) (b : GridBarId) (i : Int)
    (h0 : 0 ≤ i) (h1 : i < ((g b).length : Int))
    (p : GridBarId × Int) (hp : 0 ≤ p.2) :
    cellVal (clear_with_partner septagoSpec b i g) p
      = if p = (b, i) ∨ crossLookup septagoSpec (b, i) = some p then ""
        else cellVal g p := by
  unfold clear_with_partner
  cases hcr : crossLookup septagoSpec (b, i) with
  | none =>
      try simp only [hcr]
      rw [clear_at_eq g b i h0 h1]
      have hcond : (p = (b, i)
            ∨ (none : Option (GridBarId × Int)) = some p) = (p = (b, i)) := by
        simp
      simp only [hcond]
      exact cellVal_update_set g b i _ h0 h1 p hp
  | some ov =>
      try simp only [hcr]
      rw [clear_at_eq g b i h0 h1]
      have hbne : ov.1 ≠ b := (cross_bar_ne hcr).symm
      have hrange := cross_range hcr
      have hlen7 := gridLens_length hG ov.1
      have hg1len :
          ((updateBar g b ((g b).set i.toNat "")) ov.1).length
            = (g ov.1).length := by
        rw [updateBar_ne _ _ hbne]
      rw [clear_at_eq _ ov.1 ov.2 hrange.2.2.1 (by rw [hg1len, hlen7]; omega)]
      rw [cellVal_update_set _ ov.1 ov.2 _ hrange.2.2.1
            (by rw [hg1len, hlen7]; omega) p hp]
      rw [cellVal_update_set g b i _ h0 h1 p hp]
      have heta : (ov.1, ov.2) = ov := rfl
      simp only [heta, hcr, Option.some.injEq]
      by_cases hpv : p = ov
      · simp [hpv]
      · have hov : ¬ (ov = p) := fun hc => hpv hc.symm
        by_cases hpk : p = (b, i)
        · simp [hpv, hpk, hov]
        · simp [hpv, hpk, hov]

theorem backspace_grid_clear_eq (s : GameState) (b : GridBarId)
    (hsc : s.active.scope = Scope.grid)
    (hb : parseGridBar s.active.bar_id = some b)
    (h0 : 0 ≤ s.active.index)
    (h1 : s.active.index < ((s.grid_cells b).length : Int))
    (hcell : (s.grid_cells b).getD s.active.index.toNat "" ≠ "") :
    _on_backspace s septagoSpec
      = { s with
          grid_cells :=
            clear_with_partner septagoSpec b s.active.index s.grid_cells,
          last_action := "bksp:grid_clear" } := by
  unfold _on_backspace
  dsimp only
  simp only [hsc, hb]
  rw [if_neg (by
    intro hnil
    rw [hnil] at h1
    simp at h1
    omega)]
  rw [clamp_id h0 (by omega)]
  rw [if_pos hcell]

theorem backspace_grid_prev_eq (s : GameState) (b : GridBarId)
    (hsc : s.active.scope = Scope.grid)
    (hb : parseGridBar s.active.bar_id = some b)
    (h0 : 0 ≤ s.active.index)
    (h1 : s.active.index < ((s.grid_cells b).length : Int))
    (hcell : ¬ ((s.grid_cells b).getD s.active.index.toNat "" ≠ ""))
    (hpos : 0 < s.active.index) :
    _on_backspace s septagoSpec
      = { s with
          grid_cells :=
            clear_with_partner septagoSpec b (s.active.index - 1) s.grid_cells,
          active := { s.active with index := s.active.index - 1 },
          last_action := "bksp:grid_prev_clear" } := by
  unfold _on_backspace
  dsimp only
  simp only [hsc, hb]
  rw [if_neg (by
    intro hnil
    rw [hnil] at h1
    simp at h1
    omega)]
  rw [clamp_id h0 (by omega)]
  rw [if_neg hcell, if_pos hpos]

theorem backspace_grid_edge_eq (s : GameState) (b : GridBarId)
    (hsc : s.active.scope = Scope.grid)
    (hb : parseGridBar s.active.bar_id = some b)
    (h0 : 0 ≤ s.active.index)
    (h1 : s.active.index < ((s.grid_cells b).length : Int))
    (hcell : ¬ ((s.grid_cells b).getD s.active.index.toNat "" ≠ ""))
    (hz : s.active.index = 0) :
    _on_backspace s septagoSpec
      = { s with last_action := "bksp:grid_edge" } := by
  unfold _on_backspace
  dsimp only
  simp only [hsc, hb]
  rw [if_neg (by
    intro hnil
    rw [hnil] at h1
    simp at h1
    omega)]
  rw [clamp_id h0 (by omega)]
  rw [if_neg hcell, if_neg (by omega)]

theorem backspace_hidden_clear_eq (s : GameState) (arr : List String)
    (hsc : s.active.scope = Scope.hidden)
    (hlk : lookupHidden s.hidden_cells s.active.bar_id = some arr)
    (h0 : 0 ≤ s.active.index)
    (h1 : s.active.index < (arr.length : Int))
    (hcell : arr.getD s.active.index.toNat "" ≠ "") :
    _on_backspace s septagoSpec
      = { s with
          hidden_cells := updateHidden s.hidden_cells s.active.bar_id
            (arr.set s.active.index.toNat ""),
          last_action := "bksp:hidden_clear" } := by
  unfold _on_backspace
  dsimp only
  simp only [hsc, hlk]
  rw [if_neg (by
    intro hnil
    rw [hnil] at h1
    simp at h1
    omega)]
  rw [clamp_id h0 (by omega)]
  rw [if_pos hcell]

theorem backspace_hidden_prev_eq (s : GameState) (arr : List String)
    (hsc : s.active.scope = Scope.hidden)
    (hlk : lookupHidden s.hidden_cells s.active.bar_id = some arr)
    (h0 : 0 ≤ s.active.index)
    (h1 : s.active.index < (arr.length : Int))
    (hcell : ¬ (arr.getD s.active.index.toNat "" ≠ ""))
    (hpos : 0 < s.active.index) :
    _on_backspace s septagoSpec
      = { s with
          hidden_cells := updateHidden s.hidden_cells s.active.bar_id
            (arr.set (s.active.index - 1).toNat ""),
          active := { s.active with index := s.active.index - 1 },
          last_action := "bksp:hidden_prev_clear" } := by
  unfold _on_backspace
  dsimp only
  simp only [hsc, hlk]
  rw [if_neg (by
    intro hnil
    rw [hnil] at h1
    simp at h1
    omega)]
  rw [clamp_id h0 (by omega)]
  rw [if_neg hcell, if_pos hpos]

theorem backspace_hidden_edge_eq (s : GameState) (arr : List String)
    (hsc : s.active.scope = Scope.hidden)
    (hlk : lookupHidden s.hidden_cells s.active.bar_id = some arr)
    (h0 : 0 ≤ s.active.index)
    (h1 : s.active.index < (arr.length : Int))
    (hcell : ¬ (arr.getD s.active.index.toNat "" ≠ ""))
    (hz : s.active.index = 0) :
    _on_backspace s septagoSpec
      = { s with last_action := "bksp:hidden_edge" } := by
  unfold _on_backspace
  dsimp only
  simp only [hsc, hlk]
  rw [if_neg (by
    intro hnil
    rw [hnil] at h1
    simp at h1
    omega)]
  rw [clamp_id h0 (by omega)]
  rw [if_neg hcell, if_neg (by omega)]

theorem gridLens_of_lengths {g g2 : GridBarId → List String}
    (h : ∀ b, (g2 b).length = (g b).length) (hG : gridLens g = true) :
    gridLens g2 = true := by
  simp only [gridLens, List.all_eq_true, beq_iff_eq] at hG ⊢
  intro b hb
  rw [h b]
  exact hG b hb

theorem stateInv_congr {s t : GameState} (h2 : t.grid_cells = s.grid_cells)
    (h3 : t.hidden_cells = s.hidden_cells) (h1 : t.active = s.active) :
    StateInv t ↔ StateInv s := by
  unfold StateInv
  rw [h2, h3, activeOK_congr h1 h2 h3]

theorem inv_apply_seq {out : GameState} (csi : Option Int)
    (h : StateInv out) : StateInv (_apply_seq csi out) := by
  have hf := apply_seq_frame csi out
  exact (stateInv_congr hf.2.2.1 hf.2.2.2.1 hf.2.2.2.2.1).mpr h

theorem inv_move {s : GameState} (st : Int) (h : StateInv s) :
    StateInv (_on_move s st) := by
  obtain ⟨hG, hH, hC, hA⟩ := h
  have hf := on_move_frame s st
  refine ⟨?_, ?_, ?_, on_move_activeOK s st hA⟩
  · rw [hf.1]; exact hG
  · rw [hf.2.1]; exact hH
  · rw [hf.1]; exact hC

theorem inv_set_active {s : GameState} (pl : Payload) (h : StateInv s) :
    StateInv (_on_set_active s pl) := by
  obtain ⟨hG, hH, hC, hA⟩ := h
  have hf := on_set_active_frame s pl
  refine ⟨?_, ?_, ?_, on_set_active_activeOK s pl hG hH⟩
  · rw [hf.1]; exact hG
  · rw [hf.2.1]; exact hH
  · rw [hf.1]; exact hC

theorem inv_reset {s : GameState} (fid : String) (now : Nat)
    (h : StateInv s) : StateInv (_on_reset s fid now) := by
  obtain ⟨hG, hH, hC, hA⟩ := h
  refine ⟨?_, ?_, ?_, ?_⟩
  · unfold _on_reset
    dsimp only
    refine gridLens_of_lengths (fun b => ?_) hG
    exact List.length_map _ _
  · unfold _on_reset
    dsimp only
    obtain ⟨hne, hall⟩ := hH
    constructor
    · simp [hne]
    · intro e he
      simp only [List.mem_map] at he
      obtain ⟨e0, he0, heq⟩ := he
      rw [← heq]
      have := hall e0 he0
      simp
      intro hc
      rw [hc] at this
      exact this rfl
  · unfold _on_reset
    dsimp only
    intro k v hkv
    unfold cellVal
    rw [getD_map_const_empty, getD_map_const_empty]
  · unfold _on_reset activeOK
    dsimp only
    rw [show parseGridBar "h1" = some GridBarId.h1 from rfl]
    dsimp only
    simp only [Bool.and_eq_true, decide_eq_true_eq]
    have := gridLens_length hG GridBarId.h1
    rw [List.length_map, this]
    omega

theorem sync_after_desc {g g2 : GridBarId → List String}
    (hC : CrossSync g) (k : GridBarId × Int) (x : String)
    (hdesc : ∀ p : GridBarId × Int, 0 ≤ p.2 →
        cellVal g2 p =
          if p = k ∨ crossLookup septagoSpec k = some p then x
          else cellVal g p) :
    CrossSync g2 := by
  cases hcr : crossLookup septagoSpec k with
  | none =>
      apply sync_keys_eq hC
      intro p q hpq
      rw [hdesc p (cross_range hpq).1]
      rw [if_neg (by
        rintro (rfl | hcp)
        · rw [hcr] at hpq
          exact Option.noConfusion hpq
        · rw [hcr] at hcp
          exact Option.noConfusion hcp)]
  | some v =>
      apply sync_write_pair hC hcr
      intro p q hpq
      rw [hdesc p (cross_range hpq).1]
      have hcond : (p = k ∨ crossLookup septagoSpec k = some p)
          ↔ (p = k ∨ p = v) := by
        rw [hcr]
        simp [eq_comm]
      exact if_congr hcond rfl rfl

theorem activeOK_grid_replace {s : GameState} (g2 : GridBarId → List String)
    (hlen : ∀ b, (g2 b).length = (s.grid_cells b).length)
    (hA : activeOK s = true) (la : String) :
    activeOK { s with grid_cells := g2, last_action := la } = true := by
  unfold activeOK at hA ⊢
  dsimp only
  cases hsc : s.active.scope with
  | grid =>
      rw [hsc] at hA
      cases hb : parseGridBar s.active.bar_id with
      | none => rw [hb] at hA; simp at hA
      | some b =>
          rw [hb] at hA
          simp only [hsc, hb]
          simp only [Bool.and_eq_true, decide_eq_true_eq] at hA ⊢
          rw [hlen b]
          exact hA
  | hidden =>
      rw [hsc] at hA
      simp only [hsc]
      exact hA

theorem inv_input {s : GameState} (pl : Payload) (h : StateInv s) :
    StateInv (_on_input_letter s pl septagoSpec) := by
  obtain ⟨hG, hH, hC, hA⟩ := h
  by_cases hok : _letter_ok (pyStrip (pyUpper (pl.letter.getD ""))) = true
  case neg =>
    have hok2 : _letter_ok (pyStrip (pyUpper (pl.letter.getD ""))) = false := by
      simpa using hok
    rw [input_invalid_eq s pl septagoSpec hok2]
    exact (stateInv_congr rfl rfl rfl).mpr ⟨hG, hH, hC, hA⟩
  case pos =>
    have hA2 := hA
    unfold activeOK at hA2
    cases hsc : s.active.scope with
    | grid =>
        rw [hsc] at hA2
        cases hb : parseGridBar s.active.bar_id with
        | none => rw [hb] at hA2; simp at hA2
        | some b =>
            rw [hb] at hA2
            simp only [Bool.and_eq_true, decide_eq_true_eq] at hA2
            obtain ⟨h0, h1⟩ := hA2
            apply input_grid_main s pl b hG hsc hb h0 h1 hok
            intro g2 hdesc hlen
            apply inv_move
            refine ⟨gridLens_of_lengths hlen hG, hH,
              sync_after_desc hC (b, s.active.index) _ hdesc, ?_⟩
            exact activeOK_grid_replace g2 hlen hA _
    | hidden =>
        rw [hsc] at hA2
        cases hb : lookupHidden s.hidden_cells s.active.bar_id with
        | none => rw [hb] at hA2; simp at hA2
        | some arr =>
            rw [hb] at hA2
            simp only [Bool.and_eq_true, decide_eq_true_eq] at hA2
            obtain ⟨h0, h1⟩ := hA2
            rw [input_hidden_eq s pl arr hsc hb h0 h1 hok]
            apply inv_move
            have harrpos : 0 < arr.length := by omega
            have hsetne : arr.set s.active.index.toNat
                (pyStrip (pyUpper (pl.letter.getD ""))) ≠ [] := by
              intro hc
              have := congrArg List.length hc
              rw [List.length_set, List.length_nil] at this
              omega
            refine ⟨hG, hiddenOK_update hH hsetne, hC, ?_⟩
            unfold activeOK
            dsimp only
            simp only [hsc]
            rw [lookupHidden_update_self _ (by rw [hb]; simp)]
            simp only [Bool.and_eq_true, decide_eq_true_eq]
            rw [List.length_set]
            exact ⟨h0, h1⟩

theorem inv_backspace {s : GameState} (h : StateInv s) :
    StateInv (_on_backspace s septagoSpec) := by
  obtain ⟨hG, hH, hC, hA⟩ := h
  have hA2 := hA
  unfold activeOK at hA2
  cases hsc : s.active.scope with
  | grid =>
      rw [hsc] at hA2
      cases hb : parseGridBar s.active.bar_id with
      | none => rw [hb] at hA2; simp at hA2
      | some b =>
          rw [hb] at hA2
          simp only [Bool.and_eq_true, decide_eq_true_eq] at hA2
          obtain ⟨h0, h1⟩ := hA2
          by_cases hcell : (s.grid_cells b).getD s.active.index.toNat "" ≠ ""
          · rw [backspace_grid_clear_eq s b hsc hb h0 h1 hcell]
            refine ⟨gridLens_of_lengths
                (fun b2 => cwp_length s.grid_cells b s.active.index b2) hG,
              hH,
              sync_after_desc hC (b, s.active.index) ""
                (cwp_cellVal s.grid_cells hG b s.active.index h0 h1), ?_⟩
            exact activeOK_grid_replace _
              (fun b2 => cwp_length s.grid_cells b s.active.index b2) hA _
          · by_cases hpos : 0 < s.active.index
            · rw [backspace_grid_prev_eq s b hsc hb h0 h1 hcell hpos]
              refine ⟨gridLens_of_lengths
                  (fun b2 => cwp_length s.grid_cells b (s.active.index - 1) b2) hG,
                hH,
                sync_after_desc hC (b, s.active.index - 1) ""
                  (cwp_cellVal s.grid_cells hG b (s.active.index - 1)
                    (by omega) (by omega)), ?_⟩
              unfold activeOK
              dsimp only
              simp only [hsc, hb]
              simp only [Bool.and_eq_true, decide_eq_true_eq]
              rw [cwp_length s.grid_cells b (s.active.index - 1) b]
              constructor
              · omega
              · omega
            · have hz : s.active.index = 0 := by omega
              rw [backspace_grid_edge_eq s b hsc hb h0 h1 hcell hz]
              exact (stateInv_congr rfl rfl rfl).mpr ⟨hG, hH, hC, hA⟩
  | hidden =>
      rw [hsc] at hA2
      cases hb : lookupHidden s.hidden_cells s.active.bar_id with
      | none => rw [hb] at hA2; simp at hA2
      | some arr =>
          rw [hb] at hA2
          simp only [Bool.and_eq_true, decide_eq_true_eq] at hA2
          obtain ⟨h0, h1⟩ := hA2
          have harrpos : 0 < arr.length := by omega
          by_cases hcell : arr.getD s.active.index.toNat "" ≠ ""
          · rw [backspace_hidden_clear_eq s arr hsc hb h0 h1 hcell]
            have hsetne : arr.set s.active.index.toNat "" ≠ [] := by
              intro hc
              have := congrArg List.length hc
              rw [List.length_set, List.length_nil] at this
              omega
            refine ⟨hG, hiddenOK_update hH hsetne, hC, ?_⟩
            unfold activeOK
            dsimp only
            simp only [hsc]
            rw [lookupHidden_update_self _ (by rw [hb]; simp)]
            simp only [Bool.and_eq_true, decide_eq_true_eq]
            rw [List.length_set]
            exact ⟨h0, h1⟩
          · by_cases hpos : 0 < s.active.index
            · rw [backspace_hidden_prev_eq s arr hsc hb h0 h1 hcell hpos]
              have hsetne : arr.set (s.active.index - 1).toNat "" ≠ [] := by
                intro hc
                have := congrArg List.length hc
                rw [List.length_set, List.length_nil] at this
                omega
              refine ⟨hG, hiddenOK_update hH hsetne, hC, ?_⟩
              unfold activeOK
              dsimp only
              simp only [hsc]
              rw [lookupHidden_update_self _ (by rw [hb]; simp)]
              simp only [Bool.and_eq_true, decide_eq_true_eq]
              rw [List.length_set]
              constructor
              · omega
              · omega
            · have hz : s.active.index = 0 := by omega
              rw [backspace_hidden_edge_eq s arr hsc hb h0 h1 hcell hz]
              exact (stateInv_congr rfl rfl rfl).mpr ⟨hG, hH, hC, hA⟩

theorem inv_reduce {s : GameState} (e : GridEvent) (fid : String) (now : Nat)
    (h : StateInv s) : StateInv (reduce s e septagoSpec fid now) := by
  by_cases h1 : e.type = "INPUT_LETTER"
  · rw [reduce_eq_input h1]
    exact inv_apply_seq _ (inv_input e.payload h)
  by_cases h2 : e.type = "MOVE_NEXT"
  · rw [reduce_eq_move_next h2]
    exact inv_apply_seq _ (inv_move 1 h)
  by_cases h3 : e.type = "MOVE_PREV"
  · rw [reduce_eq_move_prev h3]
    exact inv_apply_seq _ (inv_move (-1) h)
  by_cases h4 : e.type = "SET_ACTIVE_BAR"
  · rw [reduce_eq_set_active h4]
    exact inv_apply_seq _ (inv_set_active e.payload h)
  by_cases h5 : e.type = "BACKSPACE"
  · rw [reduce_eq_backspace h5]
    exact inv_apply_seq _ (inv_backspace h)
  by_cases h6 : e.type = "RESET"
  · rw [reduce_eq_reset h6]
    exact inv_apply_seq _ (inv_reset fid now h)
  by_cases h7 : e.type = "TICK"
  · rw [reduce_eq_tick h7]
    exact inv_apply_seq _ h
  rw [reduce_eq_other h1 h2 h3 h4 h5 h6 h7]
  exact inv_apply_seq _ ((stateInv_congr rfl rfl rfl).mpr h)

theorem mkHidden_ne (ws : List String) (i : Nat) (hne : ws ≠ []) :
    mkHiddenCells ws i ≠ [] := by
  cases ws with
  | nil => exact absurd rfl hne
  | cons w t => simp [mkHiddenCells]

theorem mkHidden_mem (ws : List String) (i : Nat)
    (hval : ∀ w ∈ ws, w ≠ "") :
    ∀ e ∈ mkHiddenCells ws i, e.2 ≠ [] := by
  induction ws generalizing i with
  | nil => intro e he; simp [mkHiddenCells] at he
  | cons w t ih =>
      intro e he
      simp only [mkHiddenCells, List.mem_cons] at he
      cases he with
      | inl heq =>
          rw [heq]
          have hw : w ≠ "" := hval w (List.mem_cons_self w t)
          have hlpos : w.length ≠ 0 := by
            intro hc
            exact hw (String.ext (List.length_eq_zero.mp hc))
          dsimp only
          intro hc
          have hlen := congrArg List.length hc
          rw [List.length_replicate, List.length_nil] at hlen
          exact hlpos hlen
      | inr hmem =>
          exact ih (i + 1) (fun w2 hw2 => hval w2 (List.mem_cons_of_mem w hw2)) e hmem

theorem valid_ne_nil {p : Puzzle} (hp : ValidPuzzle p) :
    p.answers_hidden ≠ [] := by
  intro hc
  rcases hp.1 with h | h <;> rw [hc] at h <;> simp at h

theorem inv_init (p : Puzzle) (hp : ValidPuzzle p) (sid : String) (t0 : Nat) :
    StateInv (init_state p septagoSpec sid t0) := by
  have hne := valid_ne_nil hp
  have hval := hp.2
  refine ⟨rfl, ?_, ?_, rfl⟩
  · have hh : (init_state p septagoSpec sid t0).hidden_cells
        = mkHiddenCells p.answers_hidden 1 := by
      unfold init_state
      dsimp only
      rw [if_neg hne]
    rw [hh]
    exact ⟨mkHidden_ne _ _ hne, mkHidden_mem _ _ hval⟩
  · intro k v hkv
    have hg : (init_state p septagoSpec sid t0).grid_cells
        = fun bid => List.replicate (septagoSpec.bar_lengths bid) "" := rfl
    unfold cellVal
    rw [hg]
    rw [getD_replicate_empty, getD_replicate_empty]

theorem inv_run {s : GameState} (l : List (GridEvent × String × Nat))
    (h : StateInv s) : StateInv (runEvents s l) := by
  induction l generalizing s with
  | nil => exact h
  | cons x xs ih => exact ih (inv_reduce x.1 x.2.1 x.2.2 h)

theorem inv_reachable {p : Puzzle} (hp : ValidPuzzle p) {sid : String}
    {t0 : Nat} {s : GameState}
    (hr : ReachableFrom (init_state p septagoSpec sid t0) s) : StateInv s := by
  obtain ⟨l, rfl⟩ := hr
  exact inv_run l (inv_init p hp sid t0)

theorem on_input_frame (s : GameState) (pl : Payload) (g : GridSpec) :
    (_on_input_letter s pl g).state_id = s.state_id
  ∧ (_on_input_letter s pl g).puzzle_id = s.puzzle_id
  ∧ (_on_input_letter s pl g).clue_order = s.clue_order
  ∧ (_on_input_letter s pl g).start_time = s.start_time
  ∧ (_on_input_letter s pl g).last_client_seq = s.last_client_seq := by
  have hm := fun (t : GameState) => on_move_frame t 1
  unfold _on_input_letter
  dsimp only
  repeat' split
  all_goals first
    | exact ⟨rfl, rfl, rfl, rfl, rfl⟩
    | exact ⟨(hm _).2.2.1, (hm _).2.2.2.1, (hm _).2.2.2.2.1,
        (hm _).2.2.2.2.2.1, (hm _).2.2.2.2.2.2.1⟩

theorem on_backspace_frame (s : GameState) (g : GridSpec) :
    (_on_backspace s g).state_id = s.state_id
  ∧ (_on_backspace s g).puzzle_id = s.puzzle_id
  ∧ (_on_backspace s g).clue_order = s.clue_order
  ∧ (_on_backspace s g).start_time = s.start_time
  ∧ (_on_backspace s g).last_client_seq = s.last_client_seq := by
  unfold _on_backspace
  dsimp only
  repeat' split
  all_goals exact ⟨rfl, rfl, rfl, rfl, rfl⟩

/-- `activeOK` unpacked into the spec's phrasing. -/
theorem activeOK_elim {s : GameState} (h : activeOK s = true) :
    0 ≤ s.active.index
  ∧ s.active.index < ((barCells s s.active).length : Int)
  ∧ (s.active.scope = Scope.grid → parseGridBar s.active.bar_id ≠ none)
  ∧ (s.active.scope = Scope.hidden →
      lookupHidden s.hidden_cells s.active.bar_id ≠ none) := by
  unfold activeOK at h
  unfold barCells
  cases hsc : s.active.scope with
  | grid =>
      rw [hsc] at h
      cases hb : parseGridBar s.active.bar_id with
      | none => rw [hb] at h; simp at h
      | some b =>
          rw [hb] at h
          simp only [Bool.and_eq_true, decide_eq_true_eq] at h
          refine ⟨h.1, ?_, fun _ => by simp [hb], fun hc => ?_⟩
          · simp only [hb]
            exact h.2
          · exact Scope.noConfusion hc
  | hidden =>
      rw [hsc] at h
      cases hb : lookupHidden s.hidden_cells s.active.bar_id with
      | none => rw [hb] at h; simp at h
      | some arr =>
          rw [hb] at h
          simp only [Bool.and_eq_true, decide_eq_true_eq] at h
          refine ⟨h.1, ?_, fun hc => ?_, fun _ => by simp [hb]⟩
          · simp only [hb, Option.getD_some]
            exact h.2
          · exact Scope.noConfusion hc

/-- Example puzzle used by the concrete witnesses. -/
def samplePuzzle : Puzzle :=
  { answers_hidden := ["CAT"], meta_id := some "puz1", filename := "p.json" }

/-- C1: for every reachable state, cross-linked grid positions hold
equal letters (`grid_cells[b][i] == grid_cells[b2][i2]`). -/
theorem c1_cross_link_sync (p : Puzzle) (hp : ValidPuzzle p) (sid : String)
    (t0 : Nat) (s : GameState)
    (hs : ReachableFrom (init_state p septagoSpec sid t0) s) :
    ∀ k v, crossLookup septagoSpec k = some v →
      cellVal s.grid_cells k = cellVal s.grid_cells v :=
  (inv_reachable hp hs).2.2.1

theorem c1_witness :
    ValidPuzzle samplePuzzle
  ∧ (∀ k v, crossLookup septagoSpec k = some v →
      cellVal (init_state samplePuzzle septagoSpec "s0" 0).grid_cells k
        = cellVal (init_state samplePuzzle septagoSpec "s0" 0).grid_cells v) :=
  ⟨⟨Or.inl rfl, by decide⟩,
   c1_cross_link_sync samplePuzzle ⟨Or.inl rfl, by decide⟩ "s0" 0 _ ⟨[], rfl⟩⟩

/-- C4: for every reachable state, the active cursor's index is within
`[0, length-1]` of the referenced bar, and the bar id resolves to an
existing bar for its scope. -/
theorem c4_active_validity (p : Puzzle) (hp : ValidPuzzle p) (sid : String)
    (t0 : Nat) (s : GameState)
    (hs : ReachableFrom (init_state p septagoSpec sid t0) s) :
    0 ≤ s.active.index
  ∧ s.active.index < ((barCells s s.active).length : Int)
  ∧ (s.active.scope = Scope.grid → parseGridBar s.active.bar_id ≠ none)
  ∧ (s.active.scope = Scope.hidden →
      lookupHidden s.hidden_cells s.active.bar_id ≠ none) :=
  activeOK_elim (inv_reachable hp hs).2.2.2

theorem c4_witness :
    ValidPuzzle samplePuzzle
  ∧ (0 ≤ (init_state samplePuzzle septagoSpec "s0" 0).active.index
  ∧ (init_state samplePuzzle septagoSpec "s0" 0).active.index
      < ((barCells (init_state samplePuzzle septagoSpec "s0" 0)
            (init_state samplePuzzle septagoSpec "s0" 0).active).length : Int)
  ∧ ((init_state samplePuzzle septagoSpec "s0" 0).active.scope = Scope.grid →
      parseGridBar (init_state samplePuzzle septagoSpec "s0" 0).active.bar_id
        ≠ none)
  ∧ ((init_state samplePuzzle septagoSpec "s0" 0).active.scope = Scope.hidden →
      lookupHidden (init_state samplePuzzle septagoSpec "s0" 0).hidden_cells
        (init_state samplePuzzle septagoSpec "s0" 0).active.bar_id ≠ none)) :=
  ⟨⟨Or.inl rfl, by decide⟩,
   c4_active_validity samplePuzzle ⟨Or.inl rfl, by decide⟩ "s0" 0 _ ⟨[], rfl⟩⟩

/-- C10: the reducer is total — applied to any reachable state and any
event (any type string, any payload), it returns a state that satisfies
all the section-3 state invariants. -/
theorem c10_reducer_totality (p : Puzzle) (hp : ValidPuzzle p) (sid : String)
    (t0 : Nat) (s : GameState)
    (hs : ReachableFrom (init_state p septagoSpec sid t0) s)
    (e : GridEvent) (fid : String) (now : Nat) :
    StateInv (reduce s e septagoSpec fid now) :=
  inv_reduce e fid now (inv_reachable hp hs)

theorem c10_witness :
    ValidPuzzle samplePuzzle
  ∧ StateInv (reduce (init_state samplePuzzle septagoSpec "s0" 0)
      { type := "BOGUS_EVENT",
        payload := { bar_id := some "nope",
                     index := some PyIntLike.nonNumeric,
                     client_seq := some (PyIntLike.int 42) } }
      septagoSpec "f" 9) :=
  ⟨⟨Or.inl rfl, by decide⟩,
   c10_reducer_totality samplePuzzle ⟨Or.inl rfl, by decide⟩ "s0" 0 _ ⟨[], rfl⟩ _ "f" 9⟩

/-- Concrete state used by the C2 counterexample. -/
def c2State : GameState :=
  { puzzle_id := "p", state_id := "x",
    grid_cells := fun _ => List.replicate 7 "",
    hidden_cells := [("hidden1", ["", "", ""])],
    active := { scope := Scope.grid, bar_id := "h1", index := 0,
                direction := Direction.horizontal },
    clue_order := [], start_time := 0, last_client_seq := 1,
    last_action := "init" }

/-- The TICK event with client_seq 5 used by the C2 witness. -/
def c2Event : GridEvent :=
  { type := "TICK", payload := { client_seq := some (PyIntLike.int 5) } }

/-- C2 counterexample: a RESET event (no client_seq) drops
`last_client_seq` from 1 to 0, so the claimed monotonicity across every
event type, including RESET, is false. -/
theorem c2_counterexample :
    (reduce c2State { type := "RESET", payload := {} } septagoSpec "y" 0).last_client_seq
      < c2State.last_client_seq := by decide

/-- C2 (amended): for every event whose type is not RESET, the output
`last_client_seq` is never less than the input's, and equals
`max(input, payload.client_seq)` when the payload seq is present and
numeric.  (RESET instead resets the counter to 0 before the update.) -/
theorem c2_seq_monotonicity (s : GameState) (e : GridEvent) (fid : String)
    (now : Nat) (h : e.type ≠ "RESET") :
    s.last_client_seq ≤ (reduce s e septagoSpec fid now).last_client_seq
  ∧ (∀ n, clientSeqInt e.payload = some n →
      (reduce s e septagoSpec fid now).last_client_seq
        = max s.last_client_seq n) := by
  have key : ∀ out : GameState, out.last_client_seq = s.last_client_seq →
      (s.last_client_seq
          ≤ (_apply_seq (clientSeqInt e.payload) out).last_client_seq
      ∧ ∀ n, clientSeqInt e.payload = some n →
          (_apply_seq (clientSeqInt e.payload) out).last_client_seq
            = max s.last_client_seq n) := by
    intro out hout
    rw [apply_seq_last]
    cases hcs : clientSeqInt e.payload with
    | none =>
        dsimp only
        rw [hout]
        exact ⟨le_refl _, fun n hn => by cases hn⟩
    | some n =>
        dsimp only
        rw [hout]
        exact ⟨le_max_left _ _, fun m hm => by cases hm; rfl⟩
  by_cases h1 : e.type = "INPUT_LETTER"
  · rw [reduce_eq_input h1]
    exact key _ (on_input_frame s e.payload septagoSpec).2.2.2.2
  by_cases h2 : e.type = "MOVE_NEXT"
  · rw [reduce_eq_move_next h2]
    exact key _ (on_move_frame s 1).2.2.2.2.2.2.1
  by_cases h3 : e.type = "MOVE_PREV"
  · rw [reduce_eq_move_prev h3]
    exact key _ (on_move_frame s (-1)).2.2.2.2.2.2.1
  by_cases h4 : e.type = "SET_ACTIVE_BAR"
  · rw [reduce_eq_set_active h4]
    exact key _ (on_set_active_frame s e.payload).2.2.2.2.2.2
  by_cases h5 : e.type = "BACKSPACE"
  · rw [reduce_eq_backspace h5]
    exact key _ (on_backspace_frame s septagoSpec).2.2.2.2
  by_cases h7 : e.type = "TICK"
  · rw [reduce_eq_tick h7]
    exact key s rfl
  rw [reduce_eq_other h1 h2 h3 h4 h5 h h7]
  exact key _ rfl

theorem c2_witness :
    c2Event.type ≠ "RESET"
  ∧ (c2State.last_client_seq
      ≤ (reduce c2State c2Event septagoSpec "f" 0).last_client_seq
    ∧ ∀ n, clientSeqInt c2Event.payload = some n →
        (reduce c2State c2Event septagoSpec "f" 0).last_client_seq
          = max c2State.last_client_seq n) :=
  ⟨by decide, c2_seq_monotonicity c2State c2Event "f" 0 (by decide)⟩

/-- Concrete state used by the C3 counterexample: cursor at the grid
intersection `h1[1]`, all cells empty. -/
def c3State : GameState :=
  { puzzle_id := "p", state_id := "x",
    grid_cells := fun _ => List.replicate 7 "",
    hidden_cells := [("hidden1", ["", "", ""])],
    active := { scope := Scope.grid, bar_id := "h1", index := 1,
                direction := Direction.horizontal },
    clue_order := [], start_time := 0, last_client_seq := 0,
    last_action := "init" }

/-- C3 counterexample: in the fixed geometry, `h1[1]` is cross-linked to
`v1[1]`, not `v1[0]`; entering "Z" at `h1[1]` writes `h1[1]` but leaves
`v1[0]` empty, refuting the claim as stated. -/
theorem c3_counterexample :
    ((reduce c3State
        { type := "INPUT_LETTER", payload := { letter := some "Z" } }
        septagoSpec "f" 0).grid_cells GridBarId.h1).getD 1 "" = "Z"
  ∧ ((reduce c3State
        { type := "INPUT_LETTER", payload := { letter := some "Z" } }
        septagoSpec "f" 0).grid_cells GridBarId.v1).getD 0 "" ≠ "Z" := by
  decide

/-- C3 (amended): `h1` index 1 is cross-linked to `v1` index 1 in the
fixed geometry; `INPUT_LETTER("Z")` there sets both `grid_cells.h1[1]`
and `grid_cells.v1[1]` to `"Z"`. -/
theorem c3_scenario_b (s : GameState) (hG : gridLens s.grid_cells = true)
    (hact : s.active = { scope := Scope.grid, bar_id := "h1", index := 1,
                         direction := Direction.horizontal })
    (pl : Payload) (hpl : pl.letter = some "Z") (fid : String) (now : Nat) :
    ((reduce s { type := "INPUT_LETTER", payload := pl } septagoSpec fid now).grid_cells
        GridBarId.h1).getD 1 "" = "Z"
  ∧ ((reduce s { type := "INPUT_LETTER", payload := pl } septagoSpec fid now).grid_cells
        GridBarId.v1).getD 1 "" = "Z" := by
  rw [reduce_eq_input rfl]
  have hseq := (apply_seq_frame (clientSeqInt pl)
    (_on_input_letter s pl septagoSpec)).2.2.1
  rw [hseq]
  have hok : _letter_ok (pyStrip (pyUpper (pl.letter.getD ""))) = true := by
    rw [hpl]
    rfl
  have hsc : s.active.scope = Scope.grid := by
    rw [hact]
  have hb : parseGridBar s.active.bar_id = some GridBarId.h1 := by
    rw [hact]
    rfl
  have hidx : s.active.index = 1 := by
    rw [hact]
  have h0 : 0 ≤ s.active.index := by omega
  have h1' : s.active.index < ((s.grid_cells GridBarId.h1).length : Int) := by
    rw [gridLens_length hG GridBarId.h1]
    omega
  refine input_grid_main s pl GridBarId.h1 hG hsc hb h0 h1' hok
    (fun out => ((out.grid_cells GridBarId.h1).getD 1 "" = "Z")
      ∧ ((out.grid_cells GridBarId.v1).getD 1 "" = "Z")) ?_
  intro g2 hdesc hlen
  have hmf := (on_move_frame
    { s with grid_cells := g2, last_action := "input:grid" } 1).1
  rw [hmf]
  constructor
  · have hcell := hdesc (GridBarId.h1, 1) (by norm_num)
    rw [hidx] at hcell
    rw [if_pos (Or.inl rfl)] at hcell
    rw [hpl] at hcell
    exact hcell
  · have hcr : crossLookup septagoSpec (GridBarId.h1, 1)
        = some (GridBarId.v1, 1) := by decide
    have hcell := hdesc (GridBarId.v1, 1) (by norm_num)
    rw [hidx] at hcell
    rw [if_pos (Or.inr hcr)] at hcell
    rw [hpl] at hcell
    exact hcell

theorem c3_witness :
    gridLens c3State.grid_cells = true
  ∧ (((reduce c3State
        { type := "INPUT_LETTER", payload := { letter := some "Z" } }
        septagoSpec "f" 0).grid_cells GridBarId.h1).getD 1 "" = "Z"
    ∧ ((reduce c3State
        { type := "INPUT_LETTER", payload := { letter := some "Z" } }
        septagoSpec "f" 0).grid_cells GridBarId.v1).getD 1 "" = "Z") :=
  ⟨by decide, c3_scenario_b c3State (by decide) rfl _ rfl "f" 0⟩

/-- Concrete state used by the C8 counterexample: its `last_action`
still records a previous letter input. -/
def c8State : GameState :=
  { puzzle_id := "p", state_id := "x",
    grid_cells := fun _ => List.replicate 7 "",
    hidden_cells := [("hidden1", ["", "", ""])],
    active := { scope := Scope.grid, bar_id := "h1", index := 0,
                direction := Direction.horizontal },
    clue_order := [], start_time := 0, last_client_seq := 0,
    last_action := "input:grid" }

/-- C8 counterexample: reducing a TICK event returns the input state
unchanged — in particular `last_action` still reads `"input:grid"` from
the previous event, so TICK is NOT recorded as a no-op in the
diagnostic tag (only unrecognized types are). -/
theorem c8_counterexample :
    reduce c8State { type := "TICK", payload := {} } septagoSpec "f" 0 = c8State
  ∧ c8State.last_action = "input:grid" :=
  ⟨rfl, rfl⟩

/-- C8 (amended): TICK and unrecognized event types leave `grid_cells`,
`hidden_cells`, `active`, `state_id`, `puzzle_id`, `clue_order` and
`start_time` unchanged (only `last_client_seq` bookkeeping may change);
an unrecognized type is recorded as `"ignored:<type>"` in `last_action`,
while TICK leaves `last_action` unchanged as well. -/
theorem c8_tick_unrecognized_frame (s : GameState) (e : GridEvent)
    (fid : String) (now : Nat)
    (h : e.type = "TICK"
       ∨ (e.type ≠ "INPUT_LETTER" ∧ e.type ≠ "MOVE_NEXT"
          ∧ e.type ≠ "MOVE_PREV" ∧ e.type ≠ "SET_ACTIVE_BAR"
          ∧ e.type ≠ "BACKSPACE" ∧ e.type ≠ "RESET" ∧ e.type ≠ "TICK")) :
    (reduce s e septagoSpec fid now).grid_cells = s.grid_cells
  ∧ (reduce s e septagoSpec fid now).hidden_cells = s.hidden_cells
  ∧ (reduce s e septagoSpec fid now).active = s.active
  ∧ (reduce s e septagoSpec fid now).state_id = s.state_id
  ∧ (reduce s e septagoSpec fid now).puzzle_id = s.puzzle_id
  ∧ (reduce s e septagoSpec fid now).clue_order = s.clue_order
  ∧ (reduce s e septagoSpec fid now).start_time = s.start_time
  ∧ (e.type = "TICK" →
      (reduce s e septagoSpec fid now).last_action = s.last_action)
  ∧ (e.type ≠ "TICK" →
      (reduce s e septagoSpec fid now).last_action = "ignored:" ++ e.type) := by
  rcases h with htick | ⟨h1, h2, h3, h4, h5, h6, h7⟩
  · rw [reduce_eq_tick htick]
    have hf := apply_seq_frame (clientSeqInt e.payload) s
    exact ⟨hf.2.2.1, hf.2.2.2.1, hf.2.2.2.2.1, hf.2.1, hf.1,
      hf.2.2.2.2.2.1, hf.2.2.2.2.2.2.1,
      fun _ => hf.2.2.2.2.2.2.2,
      fun hc => absurd htick hc⟩
  · rw [reduce_eq_other h1 h2 h3 h4 h5 h6 h7]
    have hf := apply_seq_frame (clientSeqInt e.payload)
      { s with last_action := "ignored:" ++ e.type }
    exact ⟨hf.2.2.1, hf.2.2.2.1, hf.2.2.2.2.1, hf.2.1, hf.1,
      hf.2.2.2.2.2.1, hf.2.2.2.2.2.2.1,
      fun hc => absurd hc h7,
      fun _ => hf.2.2.2.2.2.2.2⟩

theorem c8_witness :
    (("FOO_EVENT" : String) = "TICK"
       ∨ (("FOO_EVENT" : String) ≠ "INPUT_LETTER" ∧ ("FOO_EVENT" : String) ≠ "MOVE_NEXT"
          ∧ ("FOO_EVENT" : String) ≠ "MOVE_PREV" ∧ ("FOO_EVENT" : String) ≠ "SET_ACTIVE_BAR"
          ∧ ("FOO_EVENT" : String) ≠ "BACKSPACE" ∧ ("FOO_EVENT" : String) ≠ "RESET"
          ∧ ("FOO_EVENT" : String) ≠ "TICK"))
  ∧ ((reduce c8State { type := "FOO_EVENT", payload := {} } septagoSpec "f" 0).grid_cells
        = c8State.grid_cells
    ∧ (reduce c8State { type := "FOO_EVENT", payload := {} } septagoSpec "f" 0).hidden_cells
        = c8State.hidden_cells
    ∧ (reduce c8State { type := "FOO_EVENT", payload := {} } septagoSpec "f" 0).active
        = c8State.active
    ∧ (reduce c8State { type := "FOO_EVENT", payload := {} } septagoSpec "f" 0).state_id
        = c8State.state_id
    ∧ (reduce c8State { type := "FOO_EVENT", payload := {} } septagoSpec "f" 0).puzzle_id
        = c8State.puzzle_id
    ∧ (reduce c8State { type := "FOO_EVENT", payload := {} } septagoSpec "f" 0).clue_order
        = c8State.clue_order
    ∧ (reduce c8State { type := "FOO_EVENT", payload := {} } septagoSpec "f" 0).start_time
        = c8State.start_time
    ∧ (({ type := "FOO_EVENT", payload := {} } : GridEvent).type = "TICK" →
        (reduce c8State { type := "FOO_EVENT", payload := {} } septagoSpec "f" 0).last_action
          = c8State.last_action)
    ∧ (({ type := "FOO_EVENT", payload := {} } : GridEvent).type ≠ "TICK" →
        (reduce c8State { type := "FOO_EVENT", payload := {} } septagoSpec "f" 0).last_action
          = "ignored:" ++ ({ type := "FOO_EVENT", payload := {} } : GridEvent).type)) :=
  ⟨Or.inr (by decide),
   c8_tick_unrecognized_frame c8State { type := "FOO_EVENT", payload := {} }
     "f" 0 (Or.inr (by decide))⟩

theorem barCells_grid {s : GameState} {b : GridBarId} (a : ActiveRef)
    (hsc : a.scope = Scope.grid) (hb : parseGridBar a.bar_id = some b) :
    barCells s a = s.grid_cells b := by
  unfold barCells
  simp only [hsc, hb]

theorem barCells_hidden {s : GameState} {arr : List String} (a : ActiveRef)
    (hsc : a.scope = Scope.hidden)
    (hlk : lookupHidden s.hidden_cells a.bar_id = some arr) :
    barCells s a = arr := by
  unfold barCells
  simp only [hsc, hlk, Option.getD_some]

theorem on_move_one_grid (t : GameState) (b : GridBarId)
    (hsc : t.active.scope = Scope.grid)
    (hb : parseGridBar t.active.bar_id = some b)
    (h0 : 0 ≤ t.active.index)
    (h1 : t.active.index < ((t.grid_cells b).length : Int)) :
    (_on_move t 1).active.index
      = min (t.active.index + 1) (((t.grid_cells b).length : Int) - 1) := by
  unfold _on_move
  dsimp only
  simp only [hsc, hb]
  have hne : t.grid_cells b ≠ [] := by
    intro hnil
    rw [hnil] at h1
    simp at h1
    omega
  rw [if_neg hne]
  by_cases heq : _clamp (t.active.index + 1) 0
      (((t.grid_cells b).length : Int) - 1) = t.active.index
  · rw [if_pos heq]
    dsimp only
    unfold _clamp at heq
    omega
  · rw [if_neg heq]
    dsimp only
    unfold _clamp at heq ⊢
    omega

theorem on_move_one_hidden (t : GameState) (arr : List String)
    (hsc : t.active.scope = Scope.hidden)
    (hlk : lookupHidden t.hidden_cells t.active.bar_id = some arr)
    (h0 : 0 ≤ t.active.index)
    (h1 : t.active.index < (arr.length : Int)) :
    (_on_move t 1).active.index
      = min (t.active.index + 1) ((arr.length : Int) - 1) := by
  unfold _on_move
  dsimp only
  simp only [hsc, hlk, Option.getD_some]
  have hne : arr ≠ [] := by
    intro hnil
    rw [hnil] at h1
    simp at h1
    omega
  rw [if_neg hne]
  by_cases heq : _clamp (t.active.index + 1) 0
      ((arr.length : Int) - 1) = t.active.index
  · rw [if_pos heq]
    dsimp only
    unfold _clamp at heq
    omega
  · rw [if_neg heq]
    dsimp only
    unfold _clamp at heq ⊢
    omega

/-- C5: INPUT_LETTER normalizes the letter (uppercase + strip); a
non-A-Z result changes only bookkeeping; a valid letter is written at
the active cell and the cursor advances one step within the bar,
clamped at the bar's end (no bar or scope change). -/
theorem c5_input_letter_postcondition (s : GameState) (pl : Payload)
    (fid : String) (now : Nat) (hG : gridLens s.grid_cells = true)
    (hA : activeOK s = true) :
    (_letter_ok (pyStrip (pyUpper (pl.letter.getD ""))) = false →
        (reduce s { type := "INPUT_LETTER", payload := pl } septagoSpec fid now).grid_cells = s.grid_cells
      ∧ (reduce s { type := "INPUT_LETTER", payload := pl } septagoSpec fid now).hidden_cells = s.hidden_cells
      ∧ (reduce s { type := "INPUT_LETTER", payload := pl } septagoSpec fid now).active = s.active
      ∧ (reduce s { type := "INPUT_LETTER", payload := pl } septagoSpec fid now).state_id = s.state_id
      ∧ (reduce s { type := "INPUT_LETTER", payload := pl } septagoSpec fid now).puzzle_id = s.puzzle_id
      ∧ (reduce s { type := "INPUT_LETTER", payload := pl } septagoSpec fid now).clue_order = s.clue_order
      ∧ (reduce s { type := "INPUT_LETTER", payload := pl } septagoSpec fid now).start_time = s.start_time)
  ∧ (_letter_ok (pyStrip (pyUpper (pl.letter.getD ""))) = true →
        activeCellVal (reduce s { type := "INPUT_LETTER", payload := pl } septagoSpec fid now) s.active
          = pyStrip (pyUpper (pl.letter.getD ""))
      ∧ (reduce s { type := "INPUT_LETTER", payload := pl } septagoSpec fid now).active.scope = s.active.scope
      ∧ (reduce s { type := "INPUT_LETTER", payload := pl } septagoSpec fid now).active.bar_id = s.active.bar_id
      ∧ (reduce s { type := "INPUT_LETTER", payload := pl } septagoSpec fid now).active.direction = s.active.direction
      ∧ (reduce s { type := "INPUT_LETTER", payload := pl } septagoSpec fid now).active.index
          = min (s.active.index + 1) (((barCells s s.active).length : Int) - 1)) := by
  rw [reduce_eq_input rfl]
  dsimp only
  constructor
  · intro hok
    rw [input_invalid_eq s pl septagoSpec hok]
    have hf := apply_seq_frame
      (clientSeqInt pl)
      { s with last_action := "input:ignored" }
    exact ⟨hf.2.2.1, hf.2.2.2.1, hf.2.2.2.2.1, hf.2.1, hf.1,
      hf.2.2.2.2.2.1, hf.2.2.2.2.2.2.1⟩
  · intro hok
    have hA2 := hA
    unfold activeOK at hA2
    cases hsc : s.active.scope with
    | grid =>
        rw [hsc] at hA2
        cases hb : parseGridBar s.active.bar_id with
        | none => rw [hb] at hA2; simp at hA2
        | some b =>
            rw [hb] at hA2
            simp only [Bool.and_eq_true, decide_eq_true_eq] at hA2
            obtain ⟨h0, h1⟩ := hA2
            refine input_grid_main s pl b hG hsc hb h0 h1 hok
              (fun out =>
                activeCellVal (_apply_seq (clientSeqInt pl) out) s.active
                  = pyStrip (pyUpper (pl.letter.getD ""))
              ∧ (_apply_seq (clientSeqInt pl) out).active.scope = Scope.grid
              ∧ (_apply_seq (clientSeqInt pl) out).active.bar_id = s.active.bar_id
              ∧ (_apply_seq (clientSeqInt pl) out).active.direction = s.active.direction
              ∧ (_apply_seq (clientSeqInt pl) out).active.index
                  = min (s.active.index + 1) (((barCells s s.active).length : Int) - 1)) ?_
            intro g2 hdesc hlen
            have hfa := apply_seq_frame
              (clientSeqInt pl)
              (_on_move { s with grid_cells := g2, last_action := "input:grid" } 1)
            have hmf := on_move_frame
              { s with grid_cells := g2, last_action := "input:grid" } 1
            have hgcells :
                (_apply_seq (clientSeqInt pl)
                  (_on_move { s with grid_cells := g2, last_action := "input:grid" } 1)).grid_cells
                  = g2 := by
              rw [hfa.2.2.1, hmf.1]
            refine ⟨?_, ?_, ?_, ?_, ?_⟩
            · unfold activeCellVal
              rw [barCells_grid s.active hsc hb, hgcells]
              have hcell := hdesc (b, s.active.index) h0
              rw [if_pos (Or.inl rfl)] at hcell
              exact hcell
            · rw [hfa.2.2.2.2.1, hmf.2.2.2.2.2.2.2.1]
              exact hsc
            · rw [hfa.2.2.2.2.1]
              exact hmf.2.2.2.2.2.2.2.2.1
            · rw [hfa.2.2.2.2.1]
              exact hmf.2.2.2.2.2.2.2.2.2
            · rw [hfa.2.2.2.2.1]
              have hml := on_move_one_grid
                { s with grid_cells := g2, last_action := "input:grid" } b
                hsc hb h0 (by
                  show s.active.index < ((g2 b).length : Int)
                  rw [hlen b]
                  exact h1)
              rw [hml]
              rw [barCells_grid s.active hsc hb]
              rw [show (g2 b).length = (s.grid_cells b).length from hlen b]
    | hidden =>
        rw [hsc] at hA2
        cases hb : lookupHidden s.hidden_cells s.active.bar_id with
        | none => rw [hb] at hA2; simp at hA2
        | some arr =>
            rw [hb] at hA2
            simp only [Bool.and_eq_true, decide_eq_true_eq] at hA2
            obtain ⟨h0, h1⟩ := hA2
            rw [input_hidden_eq s pl arr hsc hb h0 h1 hok]
            have hnewlk : lookupHidden
                (updateHidden s.hidden_cells s.active.bar_id
                  (arr.set s.active.index.toNat
                    (pyStrip (pyUpper (pl.letter.getD "")))))
                s.active.bar_id
                = some (arr.set s.active.index.toNat
                    (pyStrip (pyUpper (pl.letter.getD "")))) :=
              lookupHidden_update_self _ (by rw [hb]; simp)
            have hfa := apply_seq_frame
              (clientSeqInt pl)
              (_on_move { s with
                hidden_cells := updateHidden s.hidden_cells s.active.bar_id
                  (arr.set s.active.index.toNat
                    (pyStrip (pyUpper (pl.letter.getD "")))),
                last_action := "input:hidden" } 1)
            have hmf := on_move_frame
              { s with
                hidden_cells := updateHidden s.hidden_cells s.active.bar_id
                  (arr.set s.active.index.toNat
                    (pyStrip (pyUpper (pl.letter.getD "")))),
                last_action := "input:hidden" } 1
            refine ⟨?_, ?_, ?_, ?_, ?_⟩
            · unfold activeCellVal
              rw [barCells_hidden s.active hsc
                (by rw [hfa.2.2.2.1, hmf.2.1]; exact hnewlk)]
              exact getD_set_self (by omega)
            · rw [hfa.2.2.2.2.1, hmf.2.2.2.2.2.2.2.1]
              exact hsc
            · rw [hfa.2.2.2.2.1]
              exact hmf.2.2.2.2.2.2.2.2.1
            · rw [hfa.2.2.2.2.1]
              exact hmf.2.2.2.2.2.2.2.2.2
            · rw [hfa.2.2.2.2.1]
              have hml := on_move_one_hidden
                { s with
                  hidden_cells := updateHidden s.hidden_cells s.active.bar_id
                    (arr.set s.active.index.toNat
                      (pyStrip (pyUpper (pl.letter.getD "")))),
                  last_action := "input:hidden" } _
                hsc hnewlk h0 (by
                  rw [List.length_set]
                  exact h1)
              rw [hml]
              rw [barCells_hidden s.active hsc hb, List.length_set]

theorem c5_witness :
    gridLens (init_state samplePuzzle septagoSpec "s0" 0).grid_cells = true
  ∧ activeOK (init_state samplePuzzle septagoSpec "s0" 0) = true
  ∧ (_letter_ok (pyStrip (pyUpper ((some "a" : Option String).getD ""))) = true →
        activeCellVal (reduce (init_state samplePuzzle septagoSpec "s0" 0)
            { type := "INPUT_LETTER", payload := { letter := some "a" } }
            septagoSpec "f" 0)
          (init_state samplePuzzle septagoSpec "s0" 0).active
          = pyStrip (pyUpper ((some "a" : Option String).getD ""))
      ∧ (reduce (init_state samplePuzzle septagoSpec "s0" 0)
            { type := "INPUT_LETTER", payload := { letter := some "a" } }
            septagoSpec "f" 0).active.scope
          = (init_state samplePuzzle septagoSpec "s0" 0).active.scope
      ∧ (reduce (init_state samplePuzzle septagoSpec "s0" 0)
            { type := "INPUT_LETTER", payload := { letter := some "a" } }
            septagoSpec "f" 0).active.bar_id
          = (init_state samplePuzzle septagoSpec "s0" 0).active.bar_id
      ∧ (reduce (init_state samplePuzzle septagoSpec "s0" 0)
            { type := "INPUT_LETTER", payload := { letter := some "a" } }
            septagoSpec "f" 0).active.direction
          = (init_state samplePuzzle septagoSpec "s0" 0).active.direction
      ∧ (reduce (init_state samplePuzzle septagoSpec "s0" 0)
            { type := "INPUT_LETTER", payload := { letter := some "a" } }
            septagoSpec "f" 0).active.index
          = min ((init_state samplePuzzle septagoSpec "s0" 0).active.index + 1)
              (((barCells (init_state samplePuzzle septagoSpec "s0" 0)
                  (init_state samplePuzzle septagoSpec "s0" 0).active).length : Int) - 1))
  ∧ ((reduce (init_state samplePuzzle septagoSpec "s0" 0)
        { type := "INPUT_LETTER", payload := { letter := some "a" } }
        septagoSpec "f" 0).grid_cells GridBarId.h1).getD 0 "" = "A"
  ∧ (reduce (init_state samplePuzzle septagoSpec "s0" 0)
        { type := "INPUT_LETTER", payload := { letter := some "a" } }
        septagoSpec "f" 0).active.index = 1 :=
  ⟨rfl, rfl,
   (c5_input_letter_postcondition (init_state samplePuzzle septagoSpec "s0" 0)
      { letter := some "a" } "f" 0 rfl rfl).2,
   by decide, by decide⟩

theorem activeCellVal_grid {X : GameState} (b : GridBarId) (A : ActiveRef)
    (hsc : A.scope = Scope.grid) (hb : parseGridBar A.bar_id = some b) :
    activeCellVal X A = (X.grid_cells b).getD A.index.toNat "" := by
  unfold activeCellVal
  rw [barCells_grid A hsc hb]

theorem activeCellVal_hidden {X : GameState} (arr : List String)
    (A : ActiveRef) (hsc : A.scope = Scope.hidden)
    (hlk : lookupHidden X.hidden_cells A.bar_id = some arr) :
    activeCellVal X A = arr.getD A.index.toNat "" := by
  unfold activeCellVal
  rw [barCells_hidden A hsc hlk]

/-- C6: BACKSPACE clears the active cell (and, for grid scope, its
cross partner) leaving the cursor in place when the cell held a letter;
moves back one and clears there when the cell was empty and index > 0;
and only touches bookkeeping when the cell was empty at index 0. -/
theorem c6_backspace_postcondition (s : GameState) (pl : Payload)
    (fid : String) (now : Nat) (hG : gridLens s.grid_cells = true)
    (hA : activeOK s = true) :
    (activeCellVal s s.active ≠ "" →
        (reduce s { type := "BACKSPACE", payload := pl } septagoSpec fid now).active = s.active
      ∧ activeCellVal (reduce s { type := "BACKSPACE", payload := pl } septagoSpec fid now) s.active = ""
      ∧ (∀ b v, parseGridBar s.active.bar_id = some b →
          crossLookup septagoSpec (b, s.active.index) = some v →
          s.active.scope = Scope.grid →
          cellVal (reduce s { type := "BACKSPACE", payload := pl } septagoSpec fid now).grid_cells v = "")
      ∧ (s.active.scope = Scope.grid →
          (reduce s { type := "BACKSPACE", payload := pl } septagoSpec fid now).hidden_cells = s.hidden_cells)
      ∧ (s.active.scope = Scope.hidden →
          (reduce s { type := "BACKSPACE", payload := pl } septagoSpec fid now).grid_cells = s.grid_cells))
  ∧ (activeCellVal s s.active = "" → 0 < s.active.index →
        (reduce s { type := "BACKSPACE", payload := pl } septagoSpec fid now).active
          = { s.active with index := s.active.index - 1 }
      ∧ activeCellVal (reduce s { type := "BACKSPACE", payload := pl } septagoSpec fid now)
          { s.active with index := s.active.index - 1 } = ""
      ∧ (∀ b v, parseGridBar s.active.bar_id = some b →
          crossLookup septagoSpec (b, s.active.index - 1) = some v →
          s.active.scope = Scope.grid →
          cellVal (reduce s { type := "BACKSPACE", payload := pl } septagoSpec fid now).grid_cells v = "")
      ∧ (s.active.scope = Scope.grid →
          (reduce s { type := "BACKSPACE", payload := pl } septagoSpec fid now).hidden_cells = s.hidden_cells)
      ∧ (s.active.scope = Scope.hidden →
          (reduce s { type := "BACKSPACE", payload := pl } septagoSpec fid now).grid_cells = s.grid_cells))
  ∧ (activeCellVal s s.active = "" → s.active.index = 0 →
        (reduce s { type := "BACKSPACE", payload := pl } septagoSpec fid now).grid_cells = s.grid_cells
      ∧ (reduce s { type := "BACKSPACE", payload := pl } septagoSpec fid now).hidden_cells = s.hidden_cells
      ∧ (reduce s { type := "BACKSPACE", payload := pl } septagoSpec fid now).active = s.active
      ∧ (reduce s { type := "BACKSPACE", payload := pl } septagoSpec fid now).state_id = s.state_id
      ∧ (reduce s { type := "BACKSPACE", payload := pl } septagoSpec fid now).puzzle_id = s.puzzle_id
      ∧ (reduce s { type := "BACKSPACE", payload := pl } septagoSpec fid now).clue_order = s.clue_order
      ∧ (reduce s { type := "BACKSPACE", payload := pl } septagoSpec fid now).start_time = s.start_time) := by
  rw [reduce_eq_backspace rfl]
  dsimp only
  have hA2 := hA
  unfold activeOK at hA2
  cases hsc : s.active.scope with
  | grid =>
      rw [hsc] at hA2
      cases hb : parseGridBar s.active.bar_id with
      | none => rw [hb] at hA2; simp at hA2
      | some b =>
          rw [hb] at hA2
          simp only [Bool.and_eq_true, decide_eq_true_eq] at hA2
          obtain ⟨h0, h1⟩ := hA2
          have hav : activeCellVal s s.active
              = (s.grid_cells b).getD s.active.index.toNat "" := by
            unfold activeCellVal
            rw [barCells_grid s.active hsc hb]
          refine ⟨?_, ?_, ?_⟩
          · intro hcell
            have hcell2 : (s.grid_cells b).getD s.active.index.toNat "" ≠ "" := by
              rw [← hav]
              exact hcell
            rw [backspace_grid_clear_eq s b hsc hb h0 h1 hcell2]
            have hf := apply_seq_frame (clientSeqInt pl)
              { s with
                grid_cells :=
                  clear_with_partner septagoSpec b s.active.index s.grid_cells,
                last_action := "bksp:grid_clear" }
            refine ⟨hf.2.2.2.2.1, ?_, ?_, fun _ => hf.2.2.2.1,
              fun hcon => absurd hcon (by simp)⟩
            · unfold activeCellVal
              rw [barCells_grid s.active hsc hb, hf.2.2.1]
              have hc := cwp_cellVal s.grid_cells hG b s.active.index h0 h1
                (b, s.active.index) h0
              rw [if_pos (Or.inl rfl)] at hc
              exact hc
            · intro b2 v hb2 hcr _
              have hbb := Option.some.inj hb2
              subst hbb
              rw [hf.2.2.1]
              have hc := cwp_cellVal s.grid_cells hG b s.active.index h0 h1
                v (cross_range hcr).2.2.1
              rw [if_pos (Or.inr hcr)] at hc
              exact hc
          · intro hcell hpos
            have hcell2 : ¬ ((s.grid_cells b).getD s.active.index.toNat "" ≠ "") := by
              rw [← hav]
              simp [hcell]
            rw [backspace_grid_prev_eq s b hsc hb h0 h1 hcell2 hpos]
            have hf := apply_seq_frame (clientSeqInt pl)
              { s with
                grid_cells :=
                  clear_with_partner septagoSpec b (s.active.index - 1) s.grid_cells,
                active := { s.active with index := s.active.index - 1 },
                last_action := "bksp:grid_prev_clear" }
            refine ⟨by rw [hf.2.2.2.2.1, ← hsc], ?_, ?_, fun _ => hf.2.2.2.1,
              fun hcon => absurd hcon (by simp)⟩
            · refine Eq.trans (activeCellVal_grid b _ ?_ ?_) ?_
              · rfl
              · exact hb
              rw [hf.2.2.1]
              have hc := cwp_cellVal s.grid_cells hG b (s.active.index - 1)
                (by omega) (by omega) (b, s.active.index - 1) (by omega)
              rw [if_pos (Or.inl rfl)] at hc
              exact hc
            · intro b2 v hb2 hcr _
              have hbb := Option.some.inj hb2
              subst hbb
              rw [hf.2.2.1]
              have hc := cwp_cellVal s.grid_cells hG b (s.active.index - 1)
                (by omega) (by omega) v (cross_range hcr).2.2.1
              rw [if_pos (Or.inr hcr)] at hc
              exact hc
          · intro hcell hz
            have hcell2 : ¬ ((s.grid_cells b).getD s.active.index.toNat "" ≠ "") := by
              rw [← hav]
              simp [hcell]
            rw [backspace_grid_edge_eq s b hsc hb h0 h1 hcell2 hz]
            have hf := apply_seq_frame (clientSeqInt pl)
              { s with last_action := "bksp:grid_edge" }
            exact ⟨hf.2.2.1, hf.2.2.2.1, hf.2.2.2.2.1, hf.2.1, hf.1,
              hf.2.2.2.2.2.1, hf.2.2.2.2.2.2.1⟩
  | hidden =>
      rw [hsc] at hA2
      cases hb : lookupHidden s.hidden_cells s.active.bar_id with
      | none => rw [hb] at hA2; simp at hA2
      | some arr =>
          rw [hb] at hA2
          simp only [Bool.and_eq_true, decide_eq_true_eq] at hA2
          obtain ⟨h0, h1⟩ := hA2
          have hav : activeCellVal s s.active
              = arr.getD s.active.index.toNat "" := by
            unfold activeCellVal
            rw [barCells_hidden s.active hsc hb]
          refine ⟨?_, ?_, ?_⟩
          · intro hcell
            have hcell2 : arr.getD s.active.index.toNat "" ≠ "" := by
              rw [← hav]
              exact hcell
            rw [backspace_hidden_clear_eq s arr hsc hb h0 h1 hcell2]
            have hf := apply_seq_frame (clientSeqInt pl)
              { s with
                hidden_cells := updateHidden s.hidden_cells s.active.bar_id
                  (arr.set s.active.index.toNat ""),
                last_action := "bksp:hidden_clear" }
            refine ⟨hf.2.2.2.2.1, ?_,
              fun b2 v hb2 hcr hcon => absurd hcon (by simp),
              fun hcon => absurd hcon (by simp),
              fun _ => hf.2.2.1⟩
            unfold activeCellVal
            rw [barCells_hidden s.active hsc (by
              rw [hf.2.2.2.1]
              exact lookupHidden_update_self _ (by rw [hb]; simp))]
            exact getD_set_self (by omega)
          · intro hcell hpos
            have hcell2 : ¬ (arr.getD s.active.index.toNat "" ≠ "") := by
              rw [← hav]
              simp [hcell]
            rw [backspace_hidden_prev_eq s arr hsc hb h0 h1 hcell2 hpos]
            have hf := apply_seq_frame (clientSeqInt pl)
              { s with
                hidden_cells := updateHidden s.hidden_cells s.active.bar_id
                  (arr.set (s.active.index - 1).toNat ""),
                active := { s.active with index := s.active.index - 1 },
                last_action := "bksp:hidden_prev_clear" }
            refine ⟨by rw [hf.2.2.2.2.1, ← hsc], ?_,
              fun b2 v hb2 hcr hcon => absurd hcon (by simp),
              fun hcon => absurd hcon (by simp),
              fun _ => hf.2.2.1⟩
            refine Eq.trans
              (activeCellVal_hidden (arr.set (s.active.index - 1).toNat "") _ ?_ ?_) ?_
            · rfl
            · rw [hf.2.2.2.1]
              exact lookupHidden_update_self _ (by rw [hb]; simp)
            exact getD_set_self (by omega)
          · intro hcell hz
            have hcell2 : ¬ (arr.getD s.active.index.toNat "" ≠ "") := by
              rw [← hav]
              simp [hcell]
            rw [backspace_hidden_edge_eq s arr hsc hb h0 h1 hcell2 hz]
            have hf := apply_seq_frame (clientSeqInt pl)
              { s with last_action := "bksp:hidden_edge" }
            exact ⟨hf.2.2.1, hf.2.2.2.1, hf.2.2.2.2.1, hf.2.1, hf.1,
              hf.2.2.2.2.2.1, hf.2.2.2.2.2.2.1⟩

/-- Concrete state for the C6 witness: `h1[3]` holds "M", cursor there
(spec Scenario D). -/
def c6State : GameState :=
  { puzzle_id := "p", state_id := "x",
    grid_cells := fun b =>
      match b with
      | GridBarId.h1 => ["", "", "", "M", "", "", ""]
      | _ => List.replicate 7 "",
    hidden_cells := [("hidden1", ["", "", ""])],
    active := { scope := Scope.grid, bar_id := "h1", index := 3,
                direction := Direction.horizontal },
    clue_order := [], start_time := 0, last_client_seq := 0,
    last_action := "init" }

theorem c6_witness :
    gridLens c6State.grid_cells = true
  ∧ activeOK c6State = true
  ∧ (activeCellVal c6State c6State.active ≠ "" →
        (reduce c6State { type := "BACKSPACE", payload := {} } septagoSpec "f" 0).active = c6State.active
      ∧ activeCellVal (reduce c6State { type := "BACKSPACE", payload := {} } septagoSpec "f" 0) c6State.active = ""
      ∧ (∀ b v, parseGridBar c6State.active.bar_id = some b →
          crossLookup septagoSpec (b, c6State.active.index) = some v →
          c6State.active.scope = Scope.grid →
          cellVal (reduce c6State { type := "BACKSPACE", payload := {} } septagoSpec "f" 0).grid_cells v = "")
      ∧ (c6State.active.scope = Scope.grid →
          (reduce c6State { type := "BACKSPACE", payload := {} } septagoSpec "f" 0).hidden_cells = c6State.hidden_cells)
      ∧ (c6State.active.scope = Scope.hidden →
          (reduce c6State { type := "BACKSPACE", payload := {} } septagoSpec "f" 0).grid_cells = c6State.grid_cells)) :=
  ⟨by decide, by decide,
   (c6_backspace_postcondition c6State {} "f" 0 (by decide) (by decide)).1⟩

theorem barCells_grid_lit (X : GameState) (b : GridBarId) (idx : Int)
    (d : Direction) :
    barCells X { scope := Scope.grid, bar_id := gridBarName b,
                 index := idx, direction := d }
      = X.grid_cells b := by
  unfold barCells
  dsimp only
  rw [parse_gridBarName]

theorem barCells_hidden_lit (X : GameState) (bar : String) (idx : Int) :
    barCells X { scope := Scope.hidden, bar_id := bar, index := idx,
                 direction := Direction.horizontal }
      = (lookupHidden X.hidden_cells bar).getD [] := rfl

theorem set_active_grid_eq (s : GameState) (pl : Payload)
    (hscope : (if pl.scope.getD "grid" ≠ "grid" ∧ pl.scope.getD "grid" ≠ "hidden"
               then "grid" else pl.scope.getD "grid") = "grid") :
    _on_set_active s pl
      = { s with
          active :=
            { scope := Scope.grid,
              bar_id := gridBarName
                ((parseGridBar (pl.bar_id.getD "h1")).getD GridBarId.h1),
              index :=
                match pl.index with
                | none => _first_empty_index
                    (s.grid_cells ((parseGridBar (pl.bar_id.getD "h1")).getD GridBarId.h1))
                | some (PyIntLike.int n) => _clamp n 0 (max 0
                    (((s.grid_cells ((parseGridBar (pl.bar_id.getD "h1")).getD GridBarId.h1)).length : Int) - 1))
                | some PyIntLike.nonNumeric => _clamp 0 0 (max 0
                    (((s.grid_cells ((parseGridBar (pl.bar_id.getD "h1")).getD GridBarId.h1)).length : Int) - 1)),
              direction := _bar_direction (gridBarName
                ((parseGridBar (pl.bar_id.getD "h1")).getD GridBarId.h1)) },
          last_action := "set_active" } := by
  unfold _on_set_active
  dsimp only
  rw [if_pos hscope]

theorem set_active_hidden_eq (s : GameState) (pl : Payload)
    (hscope : ¬ ((if pl.scope.getD "grid" ≠ "grid" ∧ pl.scope.getD "grid" ≠ "hidden"
               then "grid" else pl.scope.getD "grid") = "grid")) :
    _on_set_active s pl
      = { s with
          active :=
            { scope := Scope.hidden,
              bar_id :=
                (if lookupHidden s.hidden_cells (pl.bar_id.getD "h1") = none
                 then ((s.hidden_cells.head?.map (fun e => e.1)).getD "hidden1")
                 else pl.bar_id.getD "h1"),
              index :=
                match pl.index with
                | none => _first_empty_index
                    ((lookupHidden s.hidden_cells
                      (if lookupHidden s.hidden_cells (pl.bar_id.getD "h1") = none
                       then ((s.hidden_cells.head?.map (fun e => e.1)).getD "hidden1")
                       else pl.bar_id.getD "h1")).getD [])
                | some (PyIntLike.int n) => _clamp n 0 (max 0
                    ((((lookupHidden s.hidden_cells
                      (if lookupHidden s.hidden_cells (pl.bar_id.getD "h1") = none
                       then ((s.hidden_cells.head?.map (fun e => e.1)).getD "hidden1")
                       else pl.bar_id.getD "h1")).getD []).length : Int) - 1))
                | some PyIntLike.nonNumeric => _clamp 0 0 (max 0
                    ((((lookupHidden s.hidden_cells
                      (if lookupHidden s.hidden_cells (pl.bar_id.getD "h1") = none
                       then ((s.hidden_cells.head?.map (fun e => e.1)).getD "hidden1")
                       else pl.bar_id.getD "h1")).getD []).length : Int) - 1)),
              direction := Direction.horizontal },
          last_action := "set_active" } := by
  unfold _on_set_active
  dsimp only
  rw [if_neg hscope]

/-- C7: SET_ACTIVE_BAR — an invalid scope behaves as scope "grid"; an
unknown grid bar falls back to `h1` with direction derived from the bar
id; an unknown hidden bar falls back to the first hidden bar (creation
order) with horizontal direction; an omitted index lands on the first
empty cell of the chosen bar (0 if full); a numeric index is clamped to
the bar's valid range. -/
theorem c7_set_active_bar (s : GameState) (pl : Payload) (fid : String)
    (now : Nat) :
    ((pl.scope.getD "grid" ≠ "grid" ∧ pl.scope.getD "grid" ≠ "hidden") →
        reduce s { type := "SET_ACTIVE_BAR", payload := pl } septagoSpec fid now
          = reduce s { type := "SET_ACTIVE_BAR",
                       payload := { pl with scope := some "grid" } }
              septagoSpec fid now)
  ∧ ((if pl.scope.getD "grid" ≠ "grid" ∧ pl.scope.getD "grid" ≠ "hidden"
      then "grid" else pl.scope.getD "grid") = "grid" →
        (reduce s { type := "SET_ACTIVE_BAR", payload := pl } septagoSpec fid now).active.scope
          = Scope.grid
      ∧ (reduce s { type := "SET_ACTIVE_BAR", payload := pl } septagoSpec fid now).active.bar_id
          = gridBarName ((parseGridBar (pl.bar_id.getD "h1")).getD GridBarId.h1)
      ∧ (reduce s { type := "SET_ACTIVE_BAR", payload := pl } septagoSpec fid now).active.direction
          = _bar_direction
              (reduce s { type := "SET_ACTIVE_BAR", payload := pl } septagoSpec fid now).active.bar_id)
  ∧ (¬ ((if pl.scope.getD "grid" ≠ "grid" ∧ pl.scope.getD "grid" ≠ "hidden"
      then "grid" else pl.scope.getD "grid") = "grid") →
        (reduce s { type := "SET_ACTIVE_BAR", payload := pl } septagoSpec fid now).active.scope
          = Scope.hidden
      ∧ (lookupHidden s.hidden_cells (pl.bar_id.getD "h1") = none →
          (reduce s { type := "SET_ACTIVE_BAR", payload := pl } septagoSpec fid now).active.bar_id
            = ((s.hidden_cells.head?.map (fun e => e.1)).getD "hidden1"))
      ∧ (lookupHidden s.hidden_cells (pl.bar_id.getD "h1") ≠ none →
          (reduce s { type := "SET_ACTIVE_BAR", payload := pl } septagoSpec fid now).active.bar_id
            = pl.bar_id.getD "h1")
      ∧ (reduce s { type := "SET_ACTIVE_BAR", payload := pl } septagoSpec fid now).active.direction
          = Direction.horizontal)
  ∧ (pl.index = none →
        (reduce s { type := "SET_ACTIVE_BAR", payload := pl } septagoSpec fid now).active.index
          = _first_empty_index (barCells s
              (reduce s { type := "SET_ACTIVE_BAR", payload := pl } septagoSpec fid now).active))
  ∧ (∀ n, pl.index = some (PyIntLike.int n) →
        (reduce s { type := "SET_ACTIVE_BAR", payload := pl } septagoSpec fid now).active.index
          = _clamp n 0 (max 0 (((barCells s
              (reduce s { type := "SET_ACTIVE_BAR", payload := pl } septagoSpec fid now).active).length : Int) - 1))) := by
  have hred : reduce s { type := "SET_ACTIVE_BAR", payload := pl } septagoSpec fid now
      = _apply_seq (clientSeqInt pl) (_on_set_active s pl) :=
    reduce_eq_set_active rfl s septagoSpec fid now
  have hfa := apply_seq_frame (clientSeqInt pl) (_on_set_active s pl)
  have hact : (reduce s { type := "SET_ACTIVE_BAR", payload := pl } septagoSpec fid now).active
      = (_on_set_active s pl).active := by
    rw [hred]
    exact hfa.2.2.2.2.1
  refine ⟨?_, ?_, ?_, ?_, ?_⟩
  · intro hinv
    rw [reduce_eq_set_active rfl, reduce_eq_set_active rfl]
    have hpl2 : _on_set_active s pl
        = _on_set_active s { pl with scope := some "grid" } := by
      rw [set_active_grid_eq s pl (by rw [if_pos hinv]),
          set_active_grid_eq s { pl with scope := some "grid" } (by simp)]
    rw [hpl2]
    rfl
  · intro hscope
    rw [hact, set_active_grid_eq s pl hscope]
    exact ⟨rfl, rfl, rfl⟩
  · intro hscope
    rw [hact, set_active_hidden_eq s pl hscope]
    by_cases hlk : lookupHidden s.hidden_cells (pl.bar_id.getD "h1") = none
    · refine ⟨rfl, fun _ => ?_, fun hcon => absurd hlk hcon, rfl⟩
      dsimp only
      rw [if_pos hlk]
    · refine ⟨rfl, fun hcon => absurd hcon hlk, fun _ => ?_, rfl⟩
      dsimp only
      rw [if_neg hlk]
  · intro hidx
    rw [hact]
    by_cases hscope : (if pl.scope.getD "grid" ≠ "grid" ∧ pl.scope.getD "grid" ≠ "hidden"
        then "grid" else pl.scope.getD "grid") = "grid"
    · rw [set_active_grid_eq s pl hscope]
      dsimp only
      rw [hidx]
      dsimp only
      rw [barCells_grid_lit]
    · rw [set_active_hidden_eq s pl hscope]
      dsimp only
      rw [hidx]
      dsimp only
      rw [barCells_hidden_lit]
  · intro n hidx
    rw [hact]
    by_cases hscope : (if pl.scope.getD "grid" ≠ "grid" ∧ pl.scope.getD "grid" ≠ "hidden"
        then "grid" else pl.scope.getD "grid") = "grid"
    · rw [set_active_grid_eq s pl hscope]
      dsimp only
      rw [hidx]
      dsimp only
      rw [barCells_grid_lit]
    · rw [set_active_hidden_eq s pl hscope]
      dsimp only
      rw [hidx]
      dsimp only
      rw [barCells_hidden_lit]

/-- Spec Scenario E, checked by evaluation: `SET_ACTIVE_BAR` with scope
hidden, bar `hidden1`, no index, on `hidden1 = ["A","","C"]` lands the
cursor at index 1 (the first empty cell). -/
theorem septago_scenario_e :
    (reduce
      { puzzle_id := "p", state_id := "x",
        grid_cells := fun _ => List.replicate 7 "",
        hidden_cells := [("hidden1", ["A", "", "C"])],
        active := { scope := Scope.grid, bar_id := "h1", index := 0,
                    direction := Direction.horizontal },
        clue_order := [], start_time := 0, last_client_seq := 0,
        last_action := "init" }
      { type := "SET_ACTIVE_BAR",
        payload := { scope := some "hidden", bar_id := some "hidden1" } }
      septagoSpec "f" 0).active
      = { scope := Scope.hidden, bar_id := "hidden1", index := 1,
          direction := Direction.horizontal } := by decide

theorem on_move_core (t1 t2 : GameState) (st : Int)
    (hg : t1.grid_cells = t2.grid_cells)
    (hh : t1.hidden_cells = t2.hidden_cells)
    (ha : t1.active = t2.active) :
    (_on_move t1 st).grid_cells = (_on_move t2 st).grid_cells
  ∧ (_on_move t1 st).hidden_cells = (_on_move t2 st).hidden_cells
  ∧ (_on_move t1 st).active = (_on_move t2 st).active := by
  unfold _on_move
  dsimp only
  rw [hg, hh, ha]
  repeat' split
  all_goals exact ⟨rfl, rfl, rfl⟩

theorem on_input_core (t1 t2 : GameState) (pl : Payload) (g : GridSpec)
    (hg : t1.grid_cells = t2.grid_cells)
    (hh : t1.hidden_cells = t2.hidden_cells)
    (ha : t1.active = t2.active) :
    (_on_input_letter t1 pl g).grid_cells = (_on_input_letter t2 pl g).grid_cells
  ∧ (_on_input_letter t1 pl g).hidden_cells = (_on_input_letter t2 pl g).hidden_cells
  ∧ (_on_input_letter t1 pl g).active = (_on_input_letter t2 pl g).active := by
  unfold _on_input_letter
  dsimp only
  rw [hg, hh, ha]
  repeat' split
  all_goals first
    | exact ⟨rfl, rfl, rfl⟩
    | exact on_move_core _ _ 1 rfl rfl rfl

/-- The hidden dict with every bar cleared, as `_on_reset` computes it. -/
def clearH (h : List (String × List String)) : List (String × List String) :=
  h.map (fun e => (e.1, e.2.map (fun _ => "")))

theorem map_const_replicate (l : List String) :
    l.map (fun _ => "") = List.replicate l.length "" := by
  induction l with
  | nil => rfl
  | cons x xs ih => simp [List.replicate, ih]

theorem updateHidden_nokey {t : List (String × List String)} {k : String}
    (arr : List String) (hno : ∀ f ∈ t, ¬ (f.1 = k)) :
    updateHidden t k arr = t := by
  induction t with
  | nil => rfl
  | cons e t2 ih =>
      have he := hno e (List.mem_cons_self e t2)
      simp only [updateHidden, List.map_cons, if_neg he]
      have := ih (fun f hf => hno f (List.mem_cons_of_mem e hf))
      simpa [updateHidden] using this

theorem clearH_keys (h : List (String × List String)) :
    (clearH h).map (fun e => e.1) = h.map (fun e => e.1) := by
  induction h with
  | nil => rfl
  | cons e t ih => simpa [clearH] using ih

theorem clearH_update {h : List (String × List String)} {k : String}
    {arr arr2 : List String}
    (hnd : (h.map (fun e => e.1)).Nodup)
    (hlk : lookupHidden h k = some arr) (hlen : arr2.length = arr.length) :
    clearH (updateHidden h k arr2) = clearH h := by
  induction h with
  | nil => simp [lookupHidden] at hlk
  | cons e t ih =>
      simp only [List.map_cons, List.nodup_cons] at hnd
      by_cases he : e.1 = k
      · have harr : arr = e.2 := by
          rw [← he] at hlk
          rw [lookupHidden_cons_self] at hlk
          exact (Option.some.inj hlk).symm
        have hno : ∀ f ∈ t, ¬ (f.1 = k) := by
          intro f hf hc
          apply hnd.1
          rw [he, ← hc]
          exact List.mem_map_of_mem (fun e => e.1) hf
        simp only [updateHidden, List.map_cons, if_pos he]
        simp only [clearH, List.map_cons]
        congr 1
        · rw [map_const_replicate, map_const_replicate, hlen, harr]
        · have ht2 := @updateHidden_nokey t k arr2 hno
          simp only [updateHidden] at ht2
          rw [ht2]
      · have hlk2 : lookupHidden t k = some arr := by
          simpa [lookupHidden, List.find?, he] using hlk
        simp only [updateHidden, List.map_cons, if_neg he]
        simp only [clearH, List.map_cons]
        congr 1
        have := ih hnd.2 hlk2
        simpa [updateHidden, clearH] using this

theorem clearH_mkHidden (ws : List String) (i : Nat) :
    clearH (mkHiddenCells ws i) = mkHiddenCells ws i := by
  induction ws generalizing i with
  | nil => rfl
  | cons w t ih =>
      simp only [mkHiddenCells, clearH, List.map_cons]
      congr 1
      · rw [map_const_replicate, List.length_replicate]
      · exact ih (i + 1)

theorem bar_lengths_seven (b : GridBarId) : septagoSpec.bar_lengths b = 7 := by
  cases b <;> rfl

theorem input_step_J (s : GameState) (pl : Payload) (hInv : StateInv s)
    (H0 : List (String × List String))
    (hnd : (H0.map (fun e => e.1)).Nodup)
    (hJ : clearH s.hidden_cells = H0) :
    clearH (_on_input_letter s pl septagoSpec).hidden_cells = H0 := by
  obtain ⟨hG, hH, hC, hA⟩ := hInv
  by_cases hok : _letter_ok (pyStrip (pyUpper (pl.letter.getD ""))) = true
  case neg =>
    rw [input_invalid_eq s pl septagoSpec (by simpa using hok)]
    exact hJ
  case pos =>
    have hA2 := hA
    unfold activeOK at hA2
    cases hsc : s.active.scope with
    | grid =>
        rw [hsc] at hA2
        cases hb : parseGridBar s.active.bar_id with
        | none => rw [hb] at hA2; simp at hA2
        | some b =>
            rw [hb] at hA2
            simp only [Bool.and_eq_true, decide_eq_true_eq] at hA2
            obtain ⟨h0, h1⟩ := hA2
            refine input_grid_main s pl b hG hsc hb h0 h1 hok
              (fun out => clearH out.hidden_cells = H0) ?_
            intro g2 _ _
            rw [(on_move_frame _ 1).2.1]
            exact hJ
    | hidden =>
        rw [hsc] at hA2
        cases hb : lookupHidden s.hidden_cells s.active.bar_id with
        | none => rw [hb] at hA2; simp at hA2
        | some arr =>
            rw [hb] at hA2
            simp only [Bool.and_eq_true, decide_eq_true_eq] at hA2
            obtain ⟨h0, h1⟩ := hA2
            rw [input_hidden_eq s pl arr hsc hb h0 h1 hok]
            rw [(on_move_frame _ 1).2.1]
            have hnd2 : (s.hidden_cells.map (fun e => e.1)).Nodup := by
              rw [← clearH_keys, hJ]
              exact hnd
            rw [clearH_update hnd2 hb (List.length_set _ _ _)]
            exact hJ

theorem reduce_input_core (s1 s2 : GameState) (e : GridEvent)
    (fid : String) (now : Nat) (he : e.type = "INPUT_LETTER")
    (hg : s1.grid_cells = s2.grid_cells)
    (hh : s1.hidden_cells = s2.hidden_cells)
    (ha : s1.active = s2.active) :
    (reduce s1 e septagoSpec fid now).grid_cells
      = (reduce s2 e septagoSpec fid now).grid_cells
  ∧ (reduce s1 e septagoSpec fid now).hidden_cells
      = (reduce s2 e septagoSpec fid now).hidden_cells
  ∧ (reduce s1 e septagoSpec fid now).active
      = (reduce s2 e septagoSpec fid now).active := by
  rw [reduce_eq_input he, reduce_eq_input he]
  have hf1 := apply_seq_frame (clientSeqInt e.payload)
    (_on_input_letter s1 e.payload septagoSpec)
  have hf2 := apply_seq_frame (clientSeqInt e.payload)
    (_on_input_letter s2 e.payload septagoSpec)
  have hcore := on_input_core s1 s2 e.payload septagoSpec hg hh ha
  refine ⟨?_, ?_, ?_⟩
  · rw [hf1.2.2.1, hf2.2.2.1]
    exact hcore.1
  · rw [hf1.2.2.2.1, hf2.2.2.2.1]
    exact hcore.2.1
  · rw [hf1.2.2.2.2.1, hf2.2.2.2.2.1]
    exact hcore.2.2

theorem reduce_input_state_id (s : GameState) (e : GridEvent)
    (fid : String) (now : Nat) (he : e.type = "INPUT_LETTER") :
    (reduce s e septagoSpec fid now).state_id = s.state_id := by
  rw [reduce_eq_input he]
  rw [(apply_seq_frame (clientSeqInt e.payload) _).2.1]
  exact (on_input_frame s e.payload septagoSpec).1

theorem run_state_id (evs : List (GridEvent × String × Nat))
    (hev : ∀ x ∈ evs, x.1.type = "INPUT_LETTER") :
    ∀ s : GameState, (runEvents s evs).state_id = s.state_id := by
  induction evs with
  | nil => intro s; rfl
  | cons x xs ih =>
      intro s
      have hx := hev x (List.mem_cons_self x xs)
      have ht := ih (fun y hy => hev y (List.mem_cons_of_mem x hy))
        (reduce s x.1 septagoSpec x.2.1 x.2.2)
      exact ht.trans (reduce_input_state_id s x.1 x.2.1 x.2.2 hx)

theorem run_core (evs : List (GridEvent × String × Nat))
    (hev : ∀ x ∈ evs, x.1.type = "INPUT_LETTER") :
    ∀ s1 s2 : GameState, s1.grid_cells = s2.grid_cells →
      s1.hidden_cells = s2.hidden_cells → s1.active = s2.active →
      (runEvents s1 evs).grid_cells = (runEvents s2 evs).grid_cells
    ∧ (runEvents s1 evs).hidden_cells = (runEvents s2 evs).hidden_cells
    ∧ (runEvents s1 evs).active = (runEvents s2 evs).active := by
  induction evs with
  | nil => intro s1 s2 hg hh ha; exact ⟨hg, hh, ha⟩
  | cons x xs ih =>
      intro s1 s2 hg hh ha
      have hx := hev x (List.mem_cons_self x xs)
      have hstep := reduce_input_core s1 s2 x.1 x.2.1 x.2.2 hx hg hh ha
      exact ih (fun y hy => hev y (List.mem_cons_of_mem x hy)) _ _
        hstep.1 hstep.2.1 hstep.2.2

theorem run_J (evs : List (GridEvent × String × Nat))
    (hev : ∀ x ∈ evs, x.1.type = "INPUT_LETTER")
    (H0 : List (String × List String))
    (hnd : (H0.map (fun e => e.1)).Nodup) :
    ∀ s : GameState, StateInv s → clearH s.hidden_cells = H0 →
      clearH (runEvents s evs).hidden_cells = H0 := by
  induction evs with
  | nil => intro s _ hJ; exact hJ
  | cons x xs ih =>
      intro s hInv hJ
      have hx := hev x (List.mem_cons_self x xs)
      refine ih (fun y hy => hev y (List.mem_cons_of_mem x hy))
        (reduce s x.1 septagoSpec x.2.1 x.2.2)
        (inv_reduce x.1 x.2.1 x.2.2 hInv) ?_
      rw [reduce_eq_input hx]
      rw [(apply_seq_frame (clientSeqInt x.1.payload) _).2.2.2.1]
      exact input_step_J s x.1.payload hInv H0 hnd hJ

theorem init_hidden_eq (p : Puzzle) (hp : ValidPuzzle p) (sid : String)
    (t0 : Nat) :
    (init_state p septagoSpec sid t0).hidden_cells
      = mkHiddenCells p.answers_hidden 1 := by
  unfold init_state
  dsimp only
  rw [if_neg (valid_ne_nil hp)]

theorem init_keys_nodup (p : Puzzle) (hp : ValidPuzzle p) (sid : String)
    (t0 : Nat) :
    (((init_state p septagoSpec sid t0).hidden_cells).map
      (fun e => e.1)).Nodup := by
  rw [init_hidden_eq p hp sid t0]
  rcases hp.1 with h1 | h2
  · obtain ⟨w, hw⟩ := List.length_eq_one.mp h1
    rw [hw]
    simp [mkHiddenCells]
  · obtain ⟨a, b, hab⟩ := List.length_eq_two.mp h2
    rw [hab]
    simp [mkHiddenCells]
    decide

/-- C9: round trip after RESET.  Any sequence of INPUT_LETTER events
replayed from the state that RESET produces reproduces the same
`grid_cells` and `hidden_cells` as the original run from `init_state`,
while the `state_id` is the RESET's fresh id, distinct from the
original. -/
theorem c9_reset_roundtrip (p : Puzzle) (hp : ValidPuzzle p)
    (sid : String) (t0 : Nat) (evs : List (GridEvent × String × Nat))
    (hev : ∀ x ∈ evs, x.1.type = "INPUT_LETTER")
    (rpl : Payload) (fid : String) (now : Nat) (hfid : fid ≠ sid) :
    (runEvents (reduce (runEvents (init_state p septagoSpec sid t0) evs)
        { type := "RESET", payload := rpl } septagoSpec fid now)
        evs).grid_cells
      = (runEvents (init_state p septagoSpec sid t0) evs).grid_cells
  ∧ (runEvents (reduce (runEvents (init_state p septagoSpec sid t0) evs)
        { type := "RESET", payload := rpl } septagoSpec fid now)
        evs).hidden_cells
      = (runEvents (init_state p septagoSpec sid t0) evs).hidden_cells
  ∧ (runEvents (reduce (runEvents (init_state p septagoSpec sid t0) evs)
        { type := "RESET", payload := rpl } septagoSpec fid now)
        evs).state_id
      ≠ (runEvents (init_state p septagoSpec sid t0) evs).state_id := by
  have hInv0 := inv_init p hp sid t0
  have hInvS : StateInv (runEvents (init_state p septagoSpec sid t0) evs) :=
    inv_run evs hInv0
  obtain ⟨hSG, hSH, hSC, hSA⟩ := hInvS
  have hnd0 := init_keys_nodup p hp sid t0
  have hJ0 : clearH (init_state p septagoSpec sid t0).hidden_cells
      = (init_state p septagoSpec sid t0).hidden_cells := by
    rw [init_hidden_eq p hp sid t0]
    exact clearH_mkHidden _ _
  have hJ : clearH (runEvents (init_state p septagoSpec sid t0)
        evs).hidden_cells
      = (init_state p septagoSpec sid t0).hidden_cells :=
    run_J evs hev _ hnd0 _ hInv0 hJ0
  have hfr := apply_seq_frame (clientSeqInt rpl)
    (_on_reset (runEvents (init_state p septagoSpec sid t0) evs) fid now)
  have hRg : (reduce (runEvents (init_state p septagoSpec sid t0) evs)
        { type := "RESET", payload := rpl } septagoSpec fid now).grid_cells
      = (init_state p septagoSpec sid t0).grid_cells := by
    rw [reduce_eq_reset rfl, hfr.2.2.1]
    have hR : (_on_reset (runEvents (init_state p septagoSpec sid t0) evs)
          fid now).grid_cells
        = fun bid => ((runEvents (init_state p septagoSpec sid t0)
            evs).grid_cells bid).map (fun _ => "") := rfl
    have hs0 : (init_state p septagoSpec sid t0).grid_cells
        = fun bid => List.replicate (septagoSpec.bar_lengths bid) "" := rfl
    rw [hR, hs0]
    funext bid
    rw [map_const_replicate, gridLens_length hSG bid, bar_lengths_seven bid]
  have hRh : (reduce (runEvents (init_state p septagoSpec sid t0) evs)
        { type := "RESET", payload := rpl } septagoSpec fid now).hidden_cells
      = (init_state p septagoSpec sid t0).hidden_cells := by
    rw [reduce_eq_reset rfl, hfr.2.2.2.1]
    exact hJ
  have hRa : (reduce (runEvents (init_state p septagoSpec sid t0) evs)
        { type := "RESET", payload := rpl } septagoSpec fid now).active
      = (init_state p septagoSpec sid t0).active := by
    rw [reduce_eq_reset rfl, hfr.2.2.2.2.1]
    rfl
  have hRid : (reduce (runEvents (init_state p septagoSpec sid t0) evs)
        { type := "RESET", payload := rpl } septagoSpec fid now).state_id
      = fid := by
    rw [reduce_eq_reset rfl, hfr.2.1]
    rfl
  have hcore := run_core evs hev _ _ hRg hRh hRa
  refine ⟨hcore.1, hcore.2.1, ?_⟩
  rw [run_state_id evs hev, run_state_id evs hev, hRid]
  intro hc
  exact hfid hc

theorem c9_witness :
    ("f1" : String) ≠ "s0"
  ∧ ((runEvents (reduce (runEvents (init_state samplePuzzle septagoSpec
        "s0" 0) []) { type := "RESET", payload := {} } septagoSpec "f1" 5)
        []).grid_cells
      = (runEvents (init_state samplePuzzle septagoSpec "s0" 0)
          []).grid_cells
    ∧ (runEvents (reduce (runEvents (init_state samplePuzzle septagoSpec
        "s0" 0) []) { type := "RESET", payload := {} } septagoSpec "f1" 5)
        []).hidden_cells
      = (runEvents (init_state samplePuzzle septagoSpec "s0" 0)
          []).hidden_cells
    ∧ (runEvents (reduce (runEvents (init_state samplePuzzle septagoSpec
        "s0" 0) []) { type := "RESET", payload := {} } septagoSpec "f1" 5)
        []).state_id
      ≠ (runEvents (init_state samplePuzzle septagoSpec "s0" 0)
          []).state_id) :=
  ⟨by decide, c9_reset_roundtrip samplePuzzle ⟨Or.inl rfl, by decide⟩
    "s0" 0 [] (by intro x hx; exact absurd hx (List.not_mem_nil x))
    {} "f1" 5 (by decide)⟩
